import Mathlib

/-!
# Preview locomotion (dwl): a shallow embedding of `PreviewLocomotion.cpp` and
of `LegCollisionFeature::computeReward`

Conventions of the embedding.

* C++ `double` is read as an element of a linearly ordered field `α` with exact
  arithmetic (the definitions are generic and run on `ℚ`; closed statements are
  made over `ℝ`).  Rounding error of the floating-point unit is not modelled
  by the definitions.  Where rounding decides what the code does (the sample
  period `addSwingPattern` reads back from two stored time stamps), the
  statements are made on trajectories that carry the stamps the code stores in
  double arithmetic, written out as exact fractions (`storedUnderrun`,
  `storedOverrun`, `storedTwoStep`).
* The `<cmath>` functions `sqrt`, `exp`, `cos`, `sin` are passed as a record
  `LibM α`; over `ℝ` the record is `⟨Real.sqrt, Real.exp, Real.cos, Real.sin⟩`.
  `pow(x, 2)` is `x ^ 2` and `round` is `cround` below.
* `unsigned int` is `Nat`; the conversion `double → unsigned int` of a value
  outside the range of the target type (negative, or `2^32` and more) is
  undefined in C++; `toUnsigned` is the conversion for values in `[0, 2^32)`
  only, and a statement that involves it is one about the code for rounded
  values in this range.
* An out-of-range `operator[]`, `back()` of an empty vector and dereferencing
  `end()` are undefined behaviour; the functions that can reach one return
  `Option`, with `none` for undefined behaviour.
* Declarations of `PreviewLocomotion.h` are not part of the sources: the value of
  a default-constructed `PreviewState` is a parameter `dflt`, and the swing
  pattern generator is a parameter `gen`.  The rigid-body and dynamics
  collaborators of the translators are the record `Collaborators`, the robot
  tables and the space discretization of `computeReward` are parameters too.
-/

set_option linter.unusedSectionVars false

namespace dwl

/-! ## Numbers and vectors -/

/-- The `<cmath>` functions the previewer calls. -/
structure LibM (α : Type) where
  sqrt : α → α
  exp : α → α
  cos : α → α
  sin : α → α

/-- C `round`: nearest integer, halfway cases away from zero. -/
def cround {α : Type} [LinearOrderedField α] [FloorRing α] (x : α) : Int :=
  if 0 ≤ x then Int.floor (x + 1 / 2) else -Int.floor (-x + 1 / 2)

/-- The conversion `unsigned int n = round(x)`, for `round(x)` in `[0, 2^32)`.
Outside this range the conversion is undefined in C++; the value `Int.toNat`
gives there (0 for a negative `x`) is not what the code does. -/
def toUnsigned {α : Type} [LinearOrderedField α] [FloorRing α] (x : α) : Nat :=
  (cround x).toNat

/-- `Eigen::Vector2d`. -/
@[ext]
structure Vector2d (α : Type) where
  x : α
  y : α
deriving DecidableEq

/-- `Eigen::Vector3d`. -/
@[ext]
structure Vector3d (α : Type) where
  x : α
  y : α
  z : α
deriving DecidableEq

namespace Vector2d

variable {α : Type} [Field α]

instance : Add (Vector2d α) := ⟨fun a b => ⟨a.x + b.x, a.y + b.y⟩⟩
instance : Sub (Vector2d α) := ⟨fun a b => ⟨a.x - b.x, a.y - b.y⟩⟩
instance : HMul (Vector2d α) α (Vector2d α) := ⟨fun a c => ⟨a.x * c, a.y * c⟩⟩
instance : HDiv (Vector2d α) α (Vector2d α) := ⟨fun a c => ⟨a.x / c, a.y / c⟩⟩

end Vector2d

namespace Vector3d

variable {α : Type} [Field α]

instance : Add (Vector3d α) := ⟨fun a b => ⟨a.x + b.x, a.y + b.y, a.z + b.z⟩⟩
instance : Sub (Vector3d α) := ⟨fun a b => ⟨a.x - b.x, a.y - b.y, a.z - b.z⟩⟩
instance : HMul (Vector3d α) α (Vector3d α) := ⟨fun a c => ⟨a.x * c, a.y * c, a.z * c⟩⟩
instance : HMul α (Vector3d α) (Vector3d α) := ⟨fun c a => ⟨c * a.x, c * a.y, c * a.z⟩⟩

/-- `Eigen::Vector3d::Zero()`. -/
def Zero : Vector3d α := ⟨0, 0, 0⟩

/-- `v.head<2>()` read. -/
def head2 (v : Vector3d α) : Vector2d α := ⟨v.x, v.y⟩

/-- `v.head<2>() = h`: the first two components are written, `z` is kept. -/
def setHead2 (v : Vector3d α) (h : Vector2d α) : Vector3d α := ⟨h.x, h.y, v.z⟩

/-- `v(rbd::Z) = c`. -/
def setZ (v : Vector3d α) (c : α) : Vector3d α := ⟨v.x, v.y, c⟩

/-- `v.norm()`, with the square root of the math library. -/
def norm (m : LibM α) (v : Vector3d α) : α := m.sqrt (v.x * v.x + v.y * v.y + v.z * v.z)

end Vector3d

/-! ## `rbd::BodyVector`: a `std::map` from body names to vectors -/

/-- The entries of a `std::map<std::string, Eigen::VectorXd>` in iteration
order (every vector the previewer stores or reads has three components). -/
abbrev BodyVector (α : Type) := List (String × Vector3d α)

namespace BodyVector

variable {α : Type}

/-- `m.find(name)`: `none` stands for `m.end()`. -/
def find : BodyVector α → String → Option (Vector3d α)
  | [], _ => none
  | (k, v) :: rest, name => if k = name then some v else find rest name

/-- `m[name] = v`: the entry of `name` is overwritten, or a new entry is put at
its place in key order. -/
def set : BodyVector α → String → Vector3d α → BodyVector α
  | [], name, v => [(name, v)]
  | (k, w) :: rest, name, v =>
    if name < k then (name, v) :: (k, w) :: rest
    else if k = name then (k, v) :: rest
    else (k, w) :: set rest name v

end BodyVector

/-! ## Data model -/

/-- `SLIPModel`. -/
structure SLIPModel (α : Type) where
  height : α
  stiffness : α

/-- `PreviewState`. -/
structure PreviewState (α : Type) where
  time : α
  com_pos : Vector3d α
  com_vel : Vector3d α
  com_acc : Vector3d α
  head_pos : α
  head_vel : α
  head_acc : α
  cop : Vector3d α
  foot_pos : BodyVector α
  foot_vel : BodyVector α
  foot_acc : BodyVector α
  support_region : BodyVector α

/-- `PreviewControl`. -/
structure PreviewControl (α : Type) where
  duration : α
  terminal_cop : Vector2d α
  terminal_length : α
  head_acc : α
  foot_target : BodyVector α

/-- `PreviewTrajectory`: a `std::vector<PreviewState>`. -/
abbrev PreviewTrajectory (α : Type) := List (PreviewState α)

/-- `MultiPhasePreviewControl`: a `std::vector<PreviewControl>`. -/
abbrev MultiPhasePreviewControl (α : Type) := List (PreviewControl α)

/-- The numeric members of a `PreviewLocomotion` object. -/
structure PreviewLocomotion (α : Type) where
  sample_time_ : α
  gravity_ : α
  mass_ : α
  step_height_ : α
  force_threshold_ : α
  slip_ : SLIPModel α
  actual_system_com_ : Vector3d α

/-! ## `PreviewLocomotion::stancePreview` -/

section Stance

variable {α : Type} [LinearOrderedField α] [FloorRing α]

/-- `slip_omega` (line 122). -/
def slip_omega (m : LibM α) (self : PreviewLocomotion α) : α :=
  m.sqrt (self.gravity_ / self.slip_.height)

/-- `alpha` (line 123). -/
def alpha (m : LibM α) (self : PreviewLocomotion α) (control : PreviewControl α) : α :=
  2 * slip_omega m self * control.duration

/-- `slip_hor_proj` (line 124). -/
def slip_hor_proj (state : PreviewState α) : Vector2d α :=
  (state.com_pos - state.cop).head2

/-- `cop_disp` (line 125). -/
def cop_disp (state : PreviewState α) (control : PreviewControl α) : Vector2d α :=
  state.cop.head2 - control.terminal_cop

/-- `slip_hor_disp` (line 126). -/
def slip_hor_disp (state : PreviewState α) (control : PreviewControl α) : Vector2d α :=
  state.com_vel.head2 * control.duration

/-- `beta_1` (line 127). -/
def beta_1 (m : LibM α) (self : PreviewLocomotion α) (state : PreviewState α)
    (control : PreviewControl α) : Vector2d α :=
  slip_hor_proj state / (2 : α) + (slip_hor_disp state control - cop_disp state control) /
    alpha m self control

/-- `beta_2` (line 128). -/
def beta_2 (m : LibM α) (self : PreviewLocomotion α) (state : PreviewState α)
    (control : PreviewControl α) : Vector2d α :=
  slip_hor_proj state / (2 : α) - (slip_hor_disp state control - cop_disp state control) /
    alpha m self control

/-- `initial_length` (line 131). -/
def initial_length (m : LibM α) (state : PreviewState α) : α :=
  (state.com_pos - state.cop).norm m

/-- `spring_omega` (line 134). -/
def spring_omega (m : LibM α) (self : PreviewLocomotion α) : α :=
  m.sqrt (self.slip_.stiffness / self.mass_)

/-- `delta_length` (line 135). -/
def delta_length (m : LibM α) (state : PreviewState α) (control : PreviewControl α) : α :=
  control.terminal_length - initial_length m state

/-- `d_1` (lines 136-137). -/
def d_1 (m : LibM α) (self : PreviewLocomotion α) (state : PreviewState α) : α :=
  state.com_pos.z - initial_length m state + self.gravity_ / spring_omega m self ^ 2

/-- `d_2` (lines 138-139). -/
def d_2 (m : LibM α) (self : PreviewLocomotion α) (state : PreviewState α)
    (control : PreviewControl α) : α :=
  state.com_vel.z / spring_omega m self -
    delta_length m state control / (spring_omega m self * control.duration)

/-- `num_samples` (line 142): `round(control.duration / sample_time_)` stored in
an `unsigned int`. -/
def num_samples (self : PreviewLocomotion α) (control : PreviewControl α) : Nat :=
  toUnsigned (control.duration / self.sample_time_)

/-- The statements of the loop body of `stancePreview` after `time` is computed
(lines 148-175): the value of `current_state` when it is stored, as a function
of the relative time `time`.  The statements are kept in the order of the
source; `com_vel.head<2>()` is assigned twice. -/
def stanceState (m : LibM α) (self : PreviewLocomotion α) (dflt state : PreviewState α)
    (control : PreviewControl α) (time : α) : PreviewState α :=
  let current_state := dflt
  let current_state := { current_state with time := state.time + time }
  let current_state := { current_state with
    com_pos := current_state.com_pos.setHead2
      (beta_1 m self state control * m.exp (slip_omega m self * time) +
        beta_2 m self state control * m.exp (-slip_omega m self * time) +
        (cop_disp state control / control.duration) * time + state.cop.head2) }
  let current_state := { current_state with
    com_vel := current_state.com_vel.setHead2
      (beta_1 m self state control * slip_omega m self * m.exp (slip_omega m self * time) -
        beta_2 m self state control * slip_omega m self * m.exp (-slip_omega m self * time) +
        cop_disp state control / control.duration) }
  let current_state := { current_state with
    com_vel := current_state.com_vel.setHead2
      (beta_1 m self state control * slip_omega m self ^ 2 * m.exp (slip_omega m self * time) +
        beta_2 m self state control * slip_omega m self ^ 2 *
          m.exp (-slip_omega m self * time)) }
  let current_state := { current_state with
    com_pos := current_state.com_pos.setZ
      (d_1 m self state * m.cos (spring_omega m self * time) +
        d_2 m self state control * m.sin (spring_omega m self * time) +
        (delta_length m state control / control.duration) * time +
        initial_length m state - self.gravity_ / spring_omega m self ^ 2) }
  let current_state := { current_state with
    com_vel := current_state.com_vel.setZ
      (-d_1 m self state * spring_omega m self * m.sin (spring_omega m self * time) +
        d_2 m self state control * spring_omega m self * m.cos (spring_omega m self * time) +
        delta_length m state control / control.duration) }
  let current_state := { current_state with
    com_acc := current_state.com_acc.setZ
      (-d_1 m self state * spring_omega m self ^ 2 * m.cos (spring_omega m self * time) -
        d_2 m self state control * spring_omega m self ^ 2 *
          m.sin (spring_omega m self * time)) }
  let current_state := { current_state with
    head_pos := state.head_pos + state.head_vel * time + (1 / 2) * control.head_acc * time ^ 2 }
  let current_state := { current_state with
    head_vel := state.head_vel + control.head_acc * time }
  let current_state := { current_state with head_acc := control.head_acc }
  current_state

/-- The body of the loop of `stancePreview` (lines 145-178): the state stored
at index `k`, computed at `time = sample_time_ * (k + 1)`. -/
def stanceSample (m : LibM α) (self : PreviewLocomotion α) (dflt state : PreviewState α)
    (control : PreviewControl α) (k : Nat) : PreviewState α :=
  let time : α := self.sample_time_ * ((k + 1 : Nat) : α)
  stanceState m self dflt state control time

/-- `std::vector::resize(n)`: truncation, or padding with default-constructed
elements. -/
def resize {β : Type} (v : List β) (n : Nat) (dflt : β) : List β :=
  v.take n ++ List.replicate (n - v.length) dflt

/-- `PreviewLocomotion::stancePreview` (lines 117-180): the trajectory passed by
reference is resized to `num_samples` and index `k` is assigned the sample `k`,
for `k = 0 .. num_samples - 1`. -/
def stancePreview (m : LibM α) (self : PreviewLocomotion α) (dflt : PreviewState α)
    (trajectory : PreviewTrajectory α) (state : PreviewState α) (control : PreviewControl α) :
    PreviewTrajectory α :=
  let num_samples := num_samples self control
  let trajectory := resize trajectory num_samples dflt
  (List.range num_samples).foldl
    (fun trajectory k => trajectory.set k (stanceSample m self dflt state control k)) trajectory

end Stance

/-! ## `PreviewLocomotion::flightPreview` -/

section Flight

variable {α : Type} [LinearOrderedField α] [FloorRing α]

/-- The body of the loop of `flightPreview` (lines 194-209): the value of the
local `current_state` at the end of iteration `k`. -/
def flightSample (self : PreviewLocomotion α) (dflt state : PreviewState α) (k : Nat) :
    PreviewState α :=
  let gravity_vec : Vector3d α := (Vector3d.Zero : Vector3d α).setZ (-self.gravity_)
  let time : α := self.sample_time_ * ((k + 1 : Nat) : α)
  let current_state := dflt
  let current_state := { current_state with time := state.time + time }
  let current_state := { current_state with
    com_pos := state.com_pos + state.com_vel * time + ((1 / 2 : α) * gravity_vec) * time ^ 2 }
  let current_state := { current_state with com_vel := state.com_vel + gravity_vec * time }
  let current_state := { current_state with com_acc := gravity_vec }
  let current_state := { current_state with head_pos := state.head_pos + state.head_vel * time }
  let current_state := { current_state with head_vel := state.head_vel }
  let current_state := { current_state with head_acc := 0 }
  current_state

/-- `PreviewLocomotion::flightPreview` (lines 183-211): every iteration builds
the local `current_state`; no statement of the loop, and none before or after
it, touches `trajectory`. -/
def flightPreview (self : PreviewLocomotion α) (dflt : PreviewState α)
    (trajectory : PreviewTrajectory α) (state : PreviewState α) (control : PreviewControl α) :
    PreviewTrajectory α :=
  let num_samples := num_samples self control
  (List.range num_samples).foldl
    (fun trajectory k =>
      let _current_state := flightSample self dflt state k
      trajectory) trajectory

end Flight

/-! ## `PreviewLocomotion::addSwingPattern` -/

/-- `simulation::StepParameters(duration, height)`. -/
structure StepParameters (α : Type) where
  duration : α
  height : α

/-- The swing pattern generator `foot_pattern_generator_` (its class is not part
of the sources): `setParameters(initial_time, initial_pos, target_pos, params)`
followed by `generateTrajectory(foot_pos, foot_vel, foot_acc, time)`, as the
triple of the three output arguments. -/
abbrev SwingGenerator (α : Type) :=
  α → Vector3d α → Vector3d α → StepParameters α → α → Vector3d α × Vector3d α × Vector3d α

section Swing

variable {α : Type} [LinearOrderedField α] [FloorRing α]

/-- An access `trajectory[k]` that modifies the element: `none` when `k` is out
of range. -/
def setSample (trajectory : PreviewTrajectory α) (k : Nat)
    (f : PreviewState α → PreviewState α) : Option (PreviewTrajectory α) :=
  match trajectory[k]? with
  | some s => some (trajectory.set k (f s))
  | none => none

/-- The clamped query time of lines 245-247 and 267-269. -/
def swingTime (state : PreviewState α) (control : PreviewControl α) (sample_time : α)
    (k : Nat) : α :=
  let time := state.time + sample_time * ((k + 1 : Nat) : α)
  if time > state.time + control.duration then state.time + control.duration else time

/-- Lines 256-258: the three map assignments of the swing branch. -/
def writeSwing (gen : SwingGenerator α) (self : PreviewLocomotion α) (state : PreviewState α)
    (control : PreviewControl α) (sample_time : α) (name : String)
    (actual_pos target_pos : Vector3d α) (k : Nat) (s : PreviewState α) : PreviewState α :=
  let step_params : StepParameters α := ⟨control.duration, self.step_height_⟩
  let time := swingTime state control sample_time k
  let out := gen state.time actual_pos target_pos step_params time
  { s with
    foot_pos := s.foot_pos.set name out.1
    foot_vel := s.foot_vel.set name out.2.1
    foot_acc := s.foot_acc.set name out.2.2 }

/-- Lines 271-277: the three map assignments of the branch of a foot on ground. -/
def writePlanted (self : PreviewLocomotion α) (name : String)
    (actual_pos actual_base_pos : Vector3d α) (s : PreviewState α) : PreviewState α :=
  let base_pos := s.com_pos - self.actual_system_com_
  { s with
    foot_pos := s.foot_pos.set name ((actual_pos + actual_base_pos) - base_pos)
    foot_vel := s.foot_vel.set name Vector3d.Zero
    foot_acc := s.foot_acc.set name Vector3d.Zero }

/-- The write one iteration of the loop over `state.foot_pos` makes to sample
`k`: `writeSwing` for a foot with a target, `writePlanted` otherwise, where
`first_com` is `trajectory[0].com_pos` read at line 265. -/
def footWrite (gen : SwingGenerator α) (self : PreviewLocomotion α) (state : PreviewState α)
    (control : PreviewControl α) (sample_time : α) (first_com : Vector3d α) (name : String)
    (actual_pos : Vector3d α) (k : Nat) (s : PreviewState α) : PreviewState α :=
  match control.foot_target.find name with
  | some target_pos => writeSwing gen self state control sample_time name actual_pos target_pos k s
  | none => writePlanted self name actual_pos (first_com - self.actual_system_com_) s

/-- One iteration of the loop over `state.foot_pos` (lines 223-279), for the
entry whose key is `name`. -/
def swingFoot (gen : SwingGenerator α) (self : PreviewLocomotion α) (state : PreviewState α)
    (control : PreviewControl α) (sample_time : α) (trajectory : PreviewTrajectory α)
    (name : String) : Option (PreviewTrajectory α) :=
  match state.foot_pos.find name with
  | none => none
  | some actual_pos =>
    match control.foot_target.find name with
    | some target_pos =>
      let num_samples := toUnsigned (control.duration / sample_time)
      (List.range num_samples).foldlM
        (fun trajectory k =>
          setSample trajectory k
            (writeSwing gen self state control sample_time name actual_pos target_pos k))
        trajectory
    | none =>
      let num_samples := toUnsigned (control.duration / sample_time)
      match trajectory[0]? with
      | none => none
      | some first =>
        let actual_base_pos := first.com_pos - self.actual_system_com_
        (List.range num_samples).foldlM
          (fun trajectory k =>
            setSample trajectory k (writePlanted self name actual_pos actual_base_pos))
          trajectory

/-- `PreviewLocomotion::addSwingPattern` (lines 214-281).  The sample period is
read back from the trajectory (line 219) and the sample count is recomputed
from it for every foot (lines 243 and 264): the count need not be the length of
the trajectory, and a write of `trajectory[k]` beyond it gives `none`.  The
difference of line 219 is exact here; the difference the code computes is that
of the two stamps stored in the trajectory, so the function is the code on a
trajectory that carries the stored stamps. -/
def addSwingPattern (gen : SwingGenerator α) (self : PreviewLocomotion α)
    (trajectory : PreviewTrajectory α) (state : PreviewState α) (control : PreviewControl α) :
    Option (PreviewTrajectory α) :=
  match trajectory[1]?, trajectory[0]? with
  | some s1, some s0 =>
    let sample_time := s1.time - s0.time
    state.foot_pos.foldlM
      (fun trajectory contact => swingFoot gen self state control sample_time trajectory contact.1)
      trajectory
  | _, _ => none

/-- The triple one iteration of the loop over `state.foot_pos` stores for the
foot `name` in sample `k`, whose CoM position is `com`: the output of the
generator for a foot with a target (lines 250-258), and the rigid offset with
zero velocity and acceleration otherwise (lines 271-277). -/
def footValue (gen : SwingGenerator α) (self : PreviewLocomotion α) (state : PreviewState α)
    (control : PreviewControl α) (sample_time : α) (first_com : Vector3d α) (name : String)
    (actual_pos : Vector3d α) (k : Nat) (com : Vector3d α) :
    Vector3d α × Vector3d α × Vector3d α :=
  match control.foot_target.find name with
  | some target_pos =>
    gen state.time actual_pos target_pos ⟨control.duration, self.step_height_⟩
      (swingTime state control sample_time k)
  | none =>
    ((actual_pos + (first_com - self.actual_system_com_)) - (com - self.actual_system_com_),
      Vector3d.Zero, Vector3d.Zero)

/-- The three foot maps of `s` hold `val` for `name`. -/
def FootIs (s : PreviewState α) (name : String)
    (val : Vector3d α × Vector3d α × Vector3d α) : Prop :=
  s.foot_pos.find name = some val.1 ∧ s.foot_vel.find name = some val.2.1 ∧
    s.foot_acc.find name = some val.2.2

/-- The fields of `s'` other than the three foot maps are those of `s`. -/
structure SameBase (s s' : PreviewState α) : Prop where
  time : s'.time = s.time
  com_pos : s'.com_pos = s.com_pos
  com_vel : s'.com_vel = s.com_vel
  com_acc : s'.com_acc = s.com_acc
  head_pos : s'.head_pos = s.head_pos
  head_vel : s'.head_vel = s.head_vel
  head_acc : s'.head_acc = s.head_acc
  cop : s'.cop = s.cop
  support_region : s'.support_region = s.support_region

/-- The shape of a trajectory as `stancePreview` leaves it in exact arithmetic:
`num_samples` samples carrying the time stamps of line 149 without rounding.
The stamps the code stores are these sums rounded to a double. -/
def StanceTimed (self : PreviewLocomotion α) (state : PreviewState α)
    (control : PreviewControl α) (trajectory : PreviewTrajectory α) : Prop :=
  trajectory.length = num_samples self control ∧
    ∀ k s, trajectory[k]? = some s →
      s.time = state.time + self.sample_time_ * ((k + 1 : Nat) : α)

/-- A swing generator for concrete runs: straight-line interpolation from the
start to the target over the step duration. -/
def linearSwing : SwingGenerator α := fun initial_time initial_pos target_pos params time =>
  (initial_pos + (target_pos - initial_pos) * ((time - initial_time) / params.duration),
    (target_pos - initial_pos) * (1 / params.duration), Vector3d.Zero)

end Swing

/-! ## `PreviewLocomotion::multiPhasePreview` -/

section MultiPhase

variable {α : Type} [LinearOrderedField α] [FloorRing α]

/-- The loop of `multiPhasePreview` (lines 96-113) from phase `i` on, over the
controls `control[i], control[i+1], ...` still to run. -/
def multiPhaseLoop (m : LibM α) (gen : SwingGenerator α) (self : PreviewLocomotion α)
    (dflt state : PreviewState α) :
    Nat → List (PreviewControl α) → PreviewTrajectory α → Option (PreviewTrajectory α)
  | _, [], trajectory => some trajectory
  | i, actual_control :: rest, trajectory =>
    let phase_traj : PreviewTrajectory α := []
    match (if i = 0 then some state else trajectory.getLast?) with
    | none => none
    | some actual_state =>
      let phase_traj := stancePreview m self dflt phase_traj actual_state actual_control
      match addSwingPattern gen self phase_traj actual_state actual_control with
      | none => none
      | some phase_traj =>
        multiPhaseLoop m gen self dflt state (i + 1) rest (trajectory ++ phase_traj)

/-- `PreviewLocomotion::multiPhasePreview` (lines 88-114). -/
def multiPhasePreview (m : LibM α) (gen : SwingGenerator α) (self : PreviewLocomotion α)
    (dflt : PreviewState α) (trajectory : PreviewTrajectory α) (state : PreviewState α)
    (control : MultiPhasePreviewControl α) : Option (PreviewTrajectory α) :=
  multiPhaseLoop m gen self dflt state 0 control trajectory

/-- One phase as the specification composes it (§4.4): the stance preview of
§4.1 followed by the swing injection of §4.3, from the phase's initial state. -/
def phasePreview (m : LibM α) (gen : SwingGenerator α) (self : PreviewLocomotion α)
    (dflt state : PreviewState α) (control : PreviewControl α) : Option (PreviewTrajectory α) :=
  addSwingPattern gen self (stancePreview m self dflt [] state control) state control

/-- The chaining of the specification (§4.4): the list of per-phase sample
lists, where phase 0 starts from the given state and each later phase starts
from the last sample the phase before it produced. -/
def chainedPhases (m : LibM α) (gen : SwingGenerator α) (self : PreviewLocomotion α)
    (dflt : PreviewState α) :
    PreviewState α → List (PreviewControl α) → Option (List (PreviewTrajectory α))
  | _, [] => some []
  | state, control :: rest =>
    match phasePreview m gen self dflt state control with
    | none => none
    | some phase =>
      match phase.getLast? with
      | none => none
      | some last =>
        match chainedPhases m gen self dflt last rest with
        | none => none
        | some phases => some (phase :: phases)

end MultiPhase

/-! ## Whole-body states and the translators -/

/-- `rbd::Vector6d`: the angular part (`AX`, `AY`, `AZ`; roll, pitch, yaw for a
pose) followed by the linear part (`LX`, `LY`, `LZ`). -/
@[ext]
structure Vector6d (α : Type) where
  angular : Vector3d α
  linear : Vector3d α

/-- `rbd::BodyWrench`: a `std::map` from body names to wrenches. -/
abbrev BodyWrench (α : Type) := List (String × Vector6d α)

/-- `WholeBodyState`: the members `PreviewLocomotion.cpp` reads or writes (the
structure is declared outside the sources; the translators access no other
member). -/
structure WholeBodyState (α : Type) where
  time : α
  base_pos : Vector6d α
  base_vel : Vector6d α
  base_acc : Vector6d α
  joint_pos : List α
  joint_vel : List α
  contact_pos : BodyVector α
  contact_vel : BodyVector α
  contact_acc : BodyVector α
  contact_eff : BodyWrench α

/-- `WholeBodyTrajectory`: a `std::vector<WholeBodyState>`. -/
abbrev WholeBodyTrajectory (α : Type) := List (WholeBodyState α)

/-- The collaborators of the translators, none of which is part of the
sources: the methods of `system_` and `dynamics_` that `fromWholeBodyState`
calls, with their output argument as result, and
`math::getRotationMatrix(rpy) * v` as `rotate rpy v`. -/
structure Collaborators (α : Type) where
  getSystemCoM : Vector6d α → List α → Vector3d α
  getSystemCoMRate : Vector6d α → List α → Vector6d α → List α → Vector3d α
  getEndEffectorNames : List String
  computeCenterOfPressure : BodyWrench α → BodyVector α → List String → Vector3d α
  getActiveContacts : BodyWrench α → α → List String
  rotate : Vector3d α → Vector3d α → Vector3d α

section Translators

variable {α : Type} [LinearOrderedField α] [FloorRing α]

/-- `rbd::Vector6d::Zero()`. -/
def Vector6d.Zero : Vector6d α := ⟨Vector3d.Zero, Vector3d.Zero⟩

/-- `PreviewLocomotion::toWholeBodyState` (lines 284-304); `full_state` is
passed by reference and comes back modified. -/
def toWholeBodyState (self : PreviewLocomotion α) (full_state : WholeBodyState α)
    (preview_state : PreviewState α) : WholeBodyState α :=
  let full_state := { full_state with time := preview_state.time }
  let full_state := { full_state with
    base_pos := { full_state.base_pos with
      linear := preview_state.com_pos - self.actual_system_com_ } }
  let full_state := { full_state with
    base_vel := { full_state.base_vel with linear := preview_state.com_vel } }
  let full_state := { full_state with
    base_acc := { full_state.base_acc with linear := preview_state.com_acc } }
  let full_state := { full_state with
    base_pos := { full_state.base_pos with
      angular := full_state.base_pos.angular.setZ preview_state.head_pos } }
  let full_state := { full_state with
    base_vel := { full_state.base_vel with
      angular := full_state.base_vel.angular.setZ preview_state.head_vel } }
  let full_state := { full_state with
    base_acc := { full_state.base_acc with
      angular := full_state.base_acc.angular.setZ preview_state.head_acc } }
  let full_state := { full_state with contact_pos := preview_state.foot_pos }
  let full_state := { full_state with contact_vel := preview_state.foot_vel }
  let full_state := { full_state with contact_acc := preview_state.foot_acc }
  full_state

/-- The loop of lines 343-347 over the active contacts: `support_region[name]`
is assigned `full_state.contact_pos.find(name)->second`; `none` when `find`
returns `end()`. -/
def addSupportRegion (full_state : WholeBodyState α) (active_contacts : List String)
    (support_region : BodyVector α) : Option (BodyVector α) :=
  active_contacts.foldlM
    (fun support_region name =>
      match full_state.contact_pos.find name with
      | none => none
      | some pos => some (support_region.set name pos))
    support_region

/-- `PreviewLocomotion::fromWholeBodyState` (lines 307-353); `preview_state` is
passed by reference, and the member `actual_system_com_` is assigned: the
result is the modified object together with the modified state. -/
def fromWholeBodyState (col : Collaborators α) (self : PreviewLocomotion α)
    (preview_state : PreviewState α) (full_state : WholeBodyState α) :
    Option (PreviewLocomotion α × PreviewState α) :=
  let preview_state := { preview_state with time := full_state.time }
  let self := { self with
    actual_system_com_ := col.getSystemCoM Vector6d.Zero full_state.joint_pos }
  let preview_state := { preview_state with
    com_pos := col.getSystemCoM full_state.base_pos full_state.joint_pos }
  let preview_state := { preview_state with
    com_vel := col.getSystemCoMRate full_state.base_pos full_state.joint_pos
      full_state.base_vel full_state.joint_vel }
  let preview_state := { preview_state with com_acc := full_state.base_acc.linear }
  let preview_state := { preview_state with head_pos := full_state.base_pos.angular.z }
  let preview_state := { preview_state with head_vel := full_state.base_vel.angular.z }
  let preview_state := { preview_state with head_acc := full_state.base_acc.angular.z }
  let base_traslation := full_state.base_pos.linear
  let base_rpy := full_state.base_pos.angular
  let cop_wrt_base := col.computeCenterOfPressure full_state.contact_eff full_state.contact_pos
    col.getEndEffectorNames
  let preview_state := { preview_state with
    cop := base_traslation + col.rotate base_rpy cop_wrt_base }
  let active_contacts := col.getActiveContacts full_state.contact_eff self.force_threshold_
  match addSupportRegion full_state active_contacts preview_state.support_region with
  | none => none
  | some support_region =>
    let preview_state := { preview_state with support_region := support_region }
    let preview_state := { preview_state with foot_pos := full_state.contact_pos }
    let preview_state := { preview_state with foot_vel := full_state.contact_vel }
    let preview_state := { preview_state with foot_acc := full_state.contact_acc }
    some (self, preview_state)

/-- `PreviewLocomotion::toWholeBodyTrajectory` (lines 356-372): `full_traj` is
resized, and one local `full_state`, default-constructed (`dfltW`) before the
loop, is passed to `toWholeBodyState` and copied to `full_traj[k]` in each
iteration. -/
def toWholeBodyTrajectory (self : PreviewLocomotion α) (dfltW : WholeBodyState α)
    (full_traj : WholeBodyTrajectory α) (preview_traj : PreviewTrajectory α) :
    WholeBodyTrajectory α :=
  let traj_size := preview_traj.length
  let full_traj := resize full_traj traj_size dfltW
  let full_state := dfltW
  ((List.range traj_size).foldl
    (fun (acc : WholeBodyTrajectory α × WholeBodyState α) k =>
      match preview_traj[k]? with
      | some preview_state =>
        let full_state := toWholeBodyState self acc.2 preview_state
        (acc.1.set k full_state, full_state)
      | none => acc)
    (full_traj, full_state)).1

/-- The rotation about the vertical axis by the angle `yaw`, with the cosine
and sine of the math library. -/
def rotateYaw (m : LibM α) (yaw : α) (v : Vector3d α) : Vector3d α :=
  ⟨v.x * m.cos yaw - v.y * m.sin yaw, v.x * m.sin yaw + v.y * m.cos yaw, v.z⟩

/-- Modelled from the spec: the rigid-body and dynamics collaborators (classes
outside the sources; "system CoM and its rate given a pose/joint
configuration") for a robot without joints and without contacts whose mass
sits at the point `c` of the base frame and whose base turns about the
vertical axis only: the system CoM is the base position plus `c` turned by the
yaw, its rate the base velocity plus the yaw rate times the turned lever. -/
def pointMassCollaborators (m : LibM α) (c : Vector3d α) : Collaborators α where
  getSystemCoM base_pos _ := base_pos.linear + rotateYaw m base_pos.angular.z c
  getSystemCoMRate base_pos _ base_vel _ :=
    base_vel.linear +
      rotateYaw m base_pos.angular.z ⟨-c.y, c.x, 0⟩ * base_vel.angular.z
  getEndEffectorNames := []
  computeCenterOfPressure _ _ _ := Vector3d.Zero
  getActiveContacts _ _ := []
  rotate rpy v := rotateYaw m rpy.z v

/-- A whole-body state with every number zero, no joint and no contact. -/
def zeroWholeBody : WholeBodyState α where
  time := 0
  base_pos := Vector6d.Zero
  base_vel := Vector6d.Zero
  base_acc := Vector6d.Zero
  joint_pos := []
  joint_vel := []
  contact_pos := []
  contact_vel := []
  contact_acc := []
  contact_eff := []

/-- A whole-body state at time 1 with the base at (1, 2, 0.5), turned by `yaw`
about the vertical axis, moving at (0.2, 0, 0), with the foot `lf_foot` at
(0.3, 0.2, -0.5). -/
def turnedWholeBody (yaw : α) : WholeBodyState α :=
  { (zeroWholeBody : WholeBodyState α) with
    time := 1
    base_pos := ⟨⟨0, 0, yaw⟩, ⟨1, 2, 1 / 2⟩⟩
    base_vel := ⟨⟨0, 0, 0⟩, ⟨1 / 5, 0, 0⟩⟩
    contact_pos := [("lf_foot", ⟨3 / 10, 1 / 5, -(1 / 2)⟩)]
    contact_vel := [("lf_foot", ⟨0, 0, 0⟩)]
    contact_acc := [("lf_foot", ⟨0, 0, 0⟩)] }

/-- Modelled from the spec: the collaborators of `pointMassCollaborators` with
the active-contact detection of the dynamics engine (a class outside the
sources; "derives the active-contact support region by thresholding contact
normal force against a configured force threshold"): the active contacts are
the names of the contact efforts whose vertical force exceeds the threshold. -/
def thresholdCollaborators (m : LibM α) (c : Vector3d α) : Collaborators α :=
  { pointMassCollaborators m c with
    getActiveContacts := fun contact_eff force_threshold =>
      (contact_eff.filter (fun e => decide (force_threshold < e.2.linear.z))).map Prod.fst }

/-- The whole-body state `turnedWholeBody 0` with a contact effort of 50 N,
vertical, on the foot `rf_foot`, which has no entry in `contact_pos`. -/
def loadedWholeBody : WholeBodyState α :=
  { (turnedWholeBody 0 : WholeBodyState α) with
    contact_eff := [("rf_foot", ⟨⟨0, 0, 0⟩, ⟨0, 0, 50⟩⟩)] }

end Translators

/-! ## `environment::LegCollisionFeature::computeReward` -/

/-- `Vertex`: the key of the height map. -/
abbrev Vertex := Nat

/-- `SearchArea`: the members `computeReward` reads. -/
structure SearchArea (α : Type) where
  min_x : α
  max_x : α
  min_y : α
  max_y : α
  grid_resolution : α

/-- The type of `info.pose`: planar position and yaw. -/
structure Pose (α : Type) where
  position : Vector2d α
  orientation : α

/-- The type of `info.contact`. -/
structure Contact (α : Type) where
  end_effector : Int
  position : Vector3d α

/-- The type of `info.height_map`: a `std::map` from vertices to heights, as
the list of its entries. -/
abbrev HeightMap (α : Type) := List (Vertex × α)

/-- `RobotAndTerrain`: the members `computeReward` reads. -/
structure RobotAndTerrain (α : Type) where
  pose : Pose α
  contact : Contact α
  height_map : HeightMap α
  resolution : α

/-- The two tables `computeReward` reads through `robot_`, indexed by the leg
(the class of `robot_` is not part of the sources). -/
structure Robot (α : Type) where
  getLegWorkAreas : Int → SearchArea α
  getNominalStance : Int → Vector3d α

section LegCollision

variable {α : Type} [LinearOrderedField α] [FloorRing α]

/-- `height_map.find(vertex)`: the entry found, `none` for `end()`. -/
def heightFind : HeightMap α → Vertex → Option (Vertex × α)
  | [], _ => none
  | (k, h) :: rest, vertex => if k = vertex then some (k, h) else heightFind rest vertex

/-- The values the variable of `for (double x = start; x < bound; x += step)`
takes in at most `fuel` iterations. -/
def loopValuesAux : Nat → α → α → α → List α
  | 0, _, _, _ => []
  | fuel + 1, x, bound, step =>
    if x < bound then x :: loopValuesAux fuel (x + step) bound step else []

/-- The values the variable of `for (double x = start; x < bound; x += step)`
takes, for a positive `step`, the sums `x += step` being exact:
`ceil((bound - start) / step)` iterations are enough (`loopValuesAux_stable`).
The code accumulates the sums in double arithmetic and can scan one cell more
or less when a sum comes within rounding of `bound`. -/
def loopValues (start bound step : α) : List α :=
  loopValuesAux (Nat.ceil ((bound - start) / step)) start bound step

/-- The body of the inner loop from the lookup on (lines 55-64), on the pair
`(max_height, is_there_height_values)`: `none` when `find` returns `end()`,
which line 56 dereferences. -/
def scanCell (info : RobotAndTerrain α) (vertex_2d : Vertex) (st : α × Bool) :
    Option (α × Bool) :=
  match heightFind info.height_map vertex_2d with
  | none => none
  | some entry =>
    if entry.1 = vertex_2d then
      let height := entry.2
      some (if height > st.1 then height else st.1, true)
    else some st

/-- The vertex of the cell the loops reach at `(x, y)` (lines 49-53). -/
def cellVertex (m : LibM α) (coordToVertex : α → Vector2d α → Vertex)
    (info : RobotAndTerrain α) (x y : α) : Vertex :=
  let position := info.pose.position
  let yaw := info.pose.orientation
  let coord : Vector2d α :=
    ⟨(x - position.x) * m.cos yaw - (y - position.y) * m.sin yaw + position.x,
      (x - position.x) * m.sin yaw + (y - position.y) * m.cos yaw + position.y⟩
  coordToVertex info.resolution coord

/-- `LegCollisionFeature::computeReward` (lines 22-76), with `reward_value` as
result.  `coordToVertex` is `space_discretization_.coordToVertex` after
`setEnvironmentResolution(info.resolution, true)`, and `dbl_max` is
`std::numeric_limits<double>::max()`. -/
def computeReward (m : LibM α) (robot : Robot α) (coordToVertex : α → Vector2d α → Vertex)
    (dbl_max : α) (info : RobotAndTerrain α) : Option α :=
  let position := info.pose.position
  let foothold := info.contact.position
  let leg := info.contact.end_effector
  let leg_area := robot.getLegWorkAreas leg
  let nominal_stance := robot.getNominalStance leg
  let boundary_min : Vector2d α :=
    ⟨position.x + nominal_stance.x + leg_area.min_x,
      position.y + nominal_stance.y + leg_area.min_y⟩
  let boundary_max : Vector2d α :=
    ⟨position.x + nominal_stance.x + leg_area.max_x,
      position.y + nominal_stance.y + leg_area.max_y⟩
  let max_height := -dbl_max
  let is_there_height_values := false
  match (loopValues boundary_min.y boundary_max.y leg_area.grid_resolution).foldlM
      (fun st y =>
        (loopValues boundary_min.x boundary_max.x leg_area.grid_resolution).foldlM
          (fun st x => scanCell info (cellVertex m coordToVertex info x y) st) st)
      (max_height, is_there_height_values) with
  | none => none
  | some (max_height, is_there_height_values) =>
    if is_there_height_values then
      let max_diff_height := max_height - foothold.z
      if max_diff_height > 0 then some (-max_diff_height) else some 0
    else some 0

/-- The vertices of the cells the two loops of `computeReward` reach, in the
order they reach them. -/
def scannedVertices (m : LibM α) (robot : Robot α) (coordToVertex : α → Vector2d α → Vertex)
    (info : RobotAndTerrain α) : List Vertex :=
  let position := info.pose.position
  let leg_area := robot.getLegWorkAreas info.contact.end_effector
  let nominal_stance := robot.getNominalStance info.contact.end_effector
  (loopValues (position.y + nominal_stance.y + leg_area.min_y)
      (position.y + nominal_stance.y + leg_area.max_y) leg_area.grid_resolution).flatMap
    fun y =>
      (loopValues (position.x + nominal_stance.x + leg_area.min_x)
          (position.x + nominal_stance.x + leg_area.max_x) leg_area.grid_resolution).map
        fun x => cellVertex m coordToVertex info x y

/-- The heights the map holds for the given vertices, in their order. -/
def heightsOf (info : RobotAndTerrain α) (cells : List Vertex) : List α :=
  cells.filterMap fun vertex => (heightFind info.height_map vertex).map Prod.snd

/-- A robot whose leg work area is the square `[0, 1) × [0, 1)` around the
nominal stance, scanned with a grid resolution of 1: one cell. -/
def unitRobot : Robot α where
  getLegWorkAreas _ := ⟨0, 1, 0, 1, 1⟩
  getNominalStance _ := ⟨0, 0, 0⟩

/-- A terrain query at the origin, yaw 0, foothold at height 0, with the given
height map. -/
def terrainAtOrigin (height_map : HeightMap α) : RobotAndTerrain α where
  pose := ⟨⟨0, 0⟩, 0⟩
  contact := ⟨0, ⟨0, 0, 0⟩⟩
  height_map := height_map
  resolution := 1

end LegCollision

/-! ## The closed forms of the specification -/

section SpecForms

variable {α : Type} [Field α]

/-- Specification, horizontal SLIP model, one coordinate:
`β1 = Δp/2 + (Δv·T − Δcop) / (2ωT)`. -/
def specBeta1 (ω T dp dcop dv : α) : α := dp / 2 + (dv * T - dcop) / (2 * ω * T)

/-- Specification: `β2 = Δp/2 − (Δv·T − Δcop) / (2ωT)`. -/
def specBeta2 (ω T dp dcop dv : α) : α := dp / 2 - (dv * T - dcop) / (2 * ω * T)

/-- Specification: `pos(t) = β1·e^{ωt} + β2·e^{-ωt} + (Δcop/T)·t + cop_initial`. -/
def specHorizontalPos (m : LibM α) (ω T dp dcop dv cop0 t : α) : α :=
  specBeta1 ω T dp dcop dv * m.exp (ω * t) + specBeta2 ω T dp dcop dv * m.exp (-(ω * t)) +
    (dcop / T) * t + cop0

/-- Specification: `vel(t) = β1·ω·e^{ωt} − β2·ω·e^{-ωt} + Δcop/T`. -/
def specHorizontalVel (m : LibM α) (ω T dp dcop dv t : α) : α :=
  specBeta1 ω T dp dcop dv * ω * m.exp (ω * t) -
    specBeta2 ω T dp dcop dv * ω * m.exp (-(ω * t)) + dcop / T

end SpecForms

/-! ## The concrete scenario of the specification

SLIP height 0.6, stiffness 1000, mass 10, gravity 9.81, sample period 0.01, one
stance phase of 0.5 s, zero initial velocities, CoM at (0, 0, 0.6), CoP at the
origin, terminal CoP (0.1, 0), terminal leg length 0.6. -/

section Scenario

variable (α : Type) [Field α]

/-- The controller of the scenario; step height and force threshold are the
values the constructor sets (line 10). -/
def scenarioModel : PreviewLocomotion α where
  sample_time_ := 1 / 100
  gravity_ := 981 / 100
  mass_ := 10
  step_height_ := 1 / 10
  force_threshold_ := 0
  slip_ := ⟨3 / 5, 1000⟩
  actual_system_com_ := ⟨0, 0, 0⟩

/-- A state with every number zero and every map empty. -/
def zeroState : PreviewState α where
  time := 0
  com_pos := ⟨0, 0, 0⟩
  com_vel := ⟨0, 0, 0⟩
  com_acc := ⟨0, 0, 0⟩
  head_pos := 0
  head_vel := 0
  head_acc := 0
  cop := ⟨0, 0, 0⟩
  foot_pos := []
  foot_vel := []
  foot_acc := []
  support_region := []

/-- The initial state of the scenario. -/
def scenarioState : PreviewState α :=
  { zeroState α with com_pos := ⟨0, 0, 3 / 5⟩ }

/-- The control of the scenario. -/
def scenarioControl : PreviewControl α where
  duration := 1 / 2
  terminal_cop := ⟨1 / 10, 0⟩
  terminal_length := 3 / 5
  head_acc := 0
  foot_target := []

/-- The scenario state moving forward at 1 m/s. -/
def movingState : PreviewState α :=
  { scenarioState α with com_vel := ⟨1, 0, 0⟩ }

/-- A control whose terminal CoP makes `slip_hor_disp - cop_disp` vanish for
`movingState`: `cop - com_vel * duration`. -/
def trackingControl : PreviewControl α :=
  { scenarioControl α with terminal_cop := ⟨-(1 / 2), 0⟩ }

/-- The scenario state with the CoM 0.1 m ahead of the CoP. -/
def offsetState : PreviewState α :=
  { scenarioState α with com_pos := ⟨1 / 10, 0, 3 / 5⟩ }

/-- The scenario control with the terminal CoP at the initial CoP. -/
def restControl : PreviewControl α :=
  { scenarioControl α with terminal_cop := ⟨0, 0⟩ }

/-- A state at rest whose leg leans forward: CoM at (0.3, 0, 0.4), CoP at the
origin, so that the leg length is 0.5 and the CoM height 0.4. -/
def leaningState : PreviewState α :=
  { scenarioState α with com_pos := ⟨3 / 10, 0, 2 / 5⟩ }

/-- The scenario control with the terminal leg length of `leaningState`. -/
def leaningControl : PreviewControl α :=
  { scenarioControl α with terminal_length := 1 / 2 }

/-- The scenario state with one foot, `lf_foot`, at (0.3, 0.2, 0). -/
def footState : PreviewState α :=
  { scenarioState α with foot_pos := [("lf_foot", ⟨3 / 10, 1 / 5, 0⟩)] }

/-- A phase of two sample periods in which `lf_foot` swings to (0.4, 0.2, 0). -/
def stepControl : PreviewControl α :=
  { scenarioControl α with duration := 1 / 50, foot_target := [("lf_foot", ⟨2 / 5, 1 / 5, 0⟩)] }

/-- The scenario control with a duration of 0.012 s, 1.2 sample periods. -/
def lateControl : PreviewControl α :=
  { scenarioControl α with duration := 3 / 250 }

/-- The scenario controller with the sample period the constructor sets, the
double nearest to 0.001 (line 10), as an exact fraction. -/
def epochModel : PreviewLocomotion α :=
  { scenarioModel α with sample_time_ := 1152921504606847 / 1152921504606846976 }

/-- The state `footState` at time 1.7e9 (seconds since an epoch). -/
def epochFootState : PreviewState α :=
  { footState α with time := 1700000000 }

/-- The state `footState` at time 1e9. -/
def billionFootState : PreviewState α :=
  { footState α with time := 1000000000 }

/-- A phase whose duration is the double nearest to 0.0025002 (2.5002 sample
periods of 0.001) in which no foot swings. -/
def underrunControl : PreviewControl α :=
  { scenarioControl α with duration := 2882534345818039 / 1152921504606846976 }

/-- The phase of `underrunControl` in which `lf_foot` swings to (0.4, 0.2, 0). -/
def underrunStepControl : PreviewControl α :=
  { underrunControl α with foot_target := [("lf_foot", ⟨2 / 5, 1 / 5, 0⟩)] }

/-- A phase whose duration is the double nearest to 0.0024999 (2.4999 sample
periods of 0.001) in which no foot swings. -/
def overrunControl : PreviewControl α :=
  { scenarioControl α with duration := 2882188469366657 / 1152921504606846976 }

/-- A phase whose duration is the double nearest to 0.002 in which `lf_foot`
swings to (0.4, 0.2, 0). -/
def twoStepControl : PreviewControl α :=
  { scenarioControl α with
    duration := 1152921504606847 / 576460752303423488
    foot_target := [("lf_foot", ⟨2 / 5, 1 / 5, 0⟩)] }

/-- A sample with time stamp `t`, the CoM at (0, 0, 0.6) and empty foot maps. -/
def storedSample (t : α) : PreviewState α :=
  { zeroState α with time := t, com_pos := ⟨0, 0, 3 / 5⟩ }

/-- Three samples with the time stamps line 149 stores in double arithmetic for
`state.time = 1.7e9` and `sample_time_ = 0.001`: the doubles nearest to
`1.7e9 + 0.001·(k+1)`, which are `1.7e9` plus 4194, 8389 and 12583 units of
`2^-22`. -/
def storedUnderrun : PreviewTrajectory α :=
  [storedSample α (1700000000 + 4194 / 4194304), storedSample α (1700000000 + 8389 / 4194304),
   storedSample α (1700000000 + 12583 / 4194304)]

/-- The first two samples of `storedUnderrun`: what line 149 stores for a phase
of two samples from `state.time = 1.7e9`. -/
def storedTwoStep : PreviewTrajectory α :=
  [storedSample α (1700000000 + 4194 / 4194304), storedSample α (1700000000 + 8389 / 4194304)]

/-- Two samples with the time stamps line 149 stores in double arithmetic for
`state.time = 1e9` and `sample_time_ = 0.001`: the doubles nearest to
`1e9 + 0.001·(k+1)`, which are `1e9` plus 8389 and 16777 units of `2^-23`. -/
def storedOverrun : PreviewTrajectory α :=
  [storedSample α (1000000000 + 8389 / 8388608), storedSample α (1000000000 + 16777 / 8388608)]

/-- A base trajectory of two samples, at times 0.01 and 0.02, with the CoM held
at (0, 0, 0.6). -/
def flatTrajectory : PreviewTrajectory α :=
  [{ zeroState α with time := 1 / 100, com_pos := ⟨0, 0, 3 / 5⟩ },
   { zeroState α with time := 2 / 100, com_pos := ⟨0, 0, 3 / 5⟩ }]

end Scenario

/-! ## Vector lemmas -/

namespace Vector2d

variable {α : Type} [Field α]

@[simp] theorem vec2_add_x (a b : Vector2d α) : (a + b).x = a.x + b.x := rfl
@[simp] theorem vec2_add_y (a b : Vector2d α) : (a + b).y = a.y + b.y := rfl
@[simp] theorem vec2_sub_x (a b : Vector2d α) : (a - b).x = a.x - b.x := rfl
@[simp] theorem vec2_sub_y (a b : Vector2d α) : (a - b).y = a.y - b.y := rfl
@[simp] theorem vec2_mul_x (a : Vector2d α) (c : α) : (a * c).x = a.x * c := rfl
@[simp] theorem vec2_mul_y (a : Vector2d α) (c : α) : (a * c).y = a.y * c := rfl
@[simp] theorem vec2_div_x (a : Vector2d α) (c : α) : (a / c).x = a.x / c := rfl
@[simp] theorem vec2_div_y (a : Vector2d α) (c : α) : (a / c).y = a.y / c := rfl

end Vector2d

namespace Vector3d

variable {α : Type} [Field α]

@[simp] theorem vec3_add_x (a b : Vector3d α) : (a + b).x = a.x + b.x := rfl
@[simp] theorem vec3_add_y (a b : Vector3d α) : (a + b).y = a.y + b.y := rfl
@[simp] theorem vec3_add_z (a b : Vector3d α) : (a + b).z = a.z + b.z := rfl
@[simp] theorem vec3_sub_x (a b : Vector3d α) : (a - b).x = a.x - b.x := rfl
@[simp] theorem vec3_sub_y (a b : Vector3d α) : (a - b).y = a.y - b.y := rfl
@[simp] theorem vec3_sub_z (a b : Vector3d α) : (a - b).z = a.z - b.z := rfl
@[simp] theorem vec3_head2_x (v : Vector3d α) : v.head2.x = v.x := rfl
@[simp] theorem vec3_head2_y (v : Vector3d α) : v.head2.y = v.y := rfl
@[simp] theorem vec3_setHead2_x (v : Vector3d α) (h : Vector2d α) : (v.setHead2 h).x = h.x := rfl
@[simp] theorem vec3_setHead2_y (v : Vector3d α) (h : Vector2d α) : (v.setHead2 h).y = h.y := rfl
@[simp] theorem vec3_setHead2_z (v : Vector3d α) (h : Vector2d α) : (v.setHead2 h).z = v.z := rfl
@[simp] theorem vec3_setZ_x (v : Vector3d α) (c : α) : (v.setZ c).x = v.x := rfl
@[simp] theorem vec3_setZ_y (v : Vector3d α) (c : α) : (v.setZ c).y = v.y := rfl
@[simp] theorem vec3_setZ_z (v : Vector3d α) (c : α) : (v.setZ c).z = c := rfl

@[simp] theorem vec3_Zero_x : (Zero : Vector3d α).x = 0 := rfl
@[simp] theorem vec3_Zero_y : (Zero : Vector3d α).y = 0 := rfl
@[simp] theorem vec3_Zero_z : (Zero : Vector3d α).z = 0 := rfl
@[simp] theorem vec3_mul_x (a : Vector3d α) (c : α) : (a * c).x = a.x * c := rfl
@[simp] theorem vec3_mul_y (a : Vector3d α) (c : α) : (a * c).y = a.y * c := rfl
@[simp] theorem vec3_mul_z (a : Vector3d α) (c : α) : (a * c).z = a.z * c := rfl
@[simp] theorem vec3_smul_x (c : α) (a : Vector3d α) : (c * a).x = c * a.x := rfl
@[simp] theorem vec3_smul_y (c : α) (a : Vector3d α) : (c * a).y = c * a.y := rfl
@[simp] theorem vec3_smul_z (c : α) (a : Vector3d α) : (c * a).z = c * a.z := rfl

end Vector3d

/-! ## Lemmas: `stancePreview` -/

section StanceLemmas

variable {α : Type} [LinearOrderedField α] [FloorRing α]

theorem cround_natCast (k : Nat) : cround (k : α) = (k : Int) := by
  unfold cround
  have h0 : (0 : α) ≤ (k : α) := Nat.cast_nonneg k
  rw [if_pos h0, Int.floor_eq_iff]
  constructor
  · push_cast; linarith
  · push_cast; linarith

theorem toUnsigned_natCast (k : Nat) : toUnsigned (k : α) = k := by
  simp [toUnsigned, cround_natCast]

theorem num_samples_of_multiple (self : PreviewLocomotion α) (control : PreviewControl α)
    (k : Nat) (hs : self.sample_time_ ≠ 0) (hd : control.duration = (k : α) * self.sample_time_) :
    num_samples self control = k := by
  unfold num_samples
  rw [hd, mul_div_assoc, div_self hs, mul_one, toUnsigned_natCast]

theorem length_resize {β : Type} (v : List β) (n : Nat) (d : β) : (resize v n d).length = n := by
  simp [resize]
  omega

/-- Assigning `f k` to index `k` for every `k < n` of a vector of length at
least `n` gives `f 0, ..., f (n-1)` followed by the untouched tail. -/
theorem foldl_set_range {β : Type} (f : Nat → β) (n : Nat) (l : List β) (hn : n ≤ l.length) :
    (List.range n).foldl (fun t k => t.set k (f k)) l = (List.range n).map f ++ l.drop n := by
  induction n with
  | zero => simp
  | succ n ih =>
    have hlt : n < l.length := hn
    rw [List.range_succ, List.foldl_append, List.foldl_cons, List.foldl_nil, ih (Nat.le_of_lt hlt),
      List.set_append_right _ _ (by simp), List.drop_eq_getElem_cons hlt]
    simp only [List.length_map, List.length_range, Nat.sub_self, List.set_cons_zero,
      List.map_append, List.map_cons, List.map_nil, List.append_assoc, List.singleton_append]

/-- The trajectory `stancePreview` leaves behind does not depend on the one it
was handed: it is the list of the `num_samples` samples. -/
theorem stancePreview_eq (m : LibM α) (self : PreviewLocomotion α) (dflt : PreviewState α)
    (trajectory : PreviewTrajectory α) (state : PreviewState α) (control : PreviewControl α) :
    stancePreview m self dflt trajectory state control =
      (List.range (num_samples self control)).map (stanceSample m self dflt state control) := by
  unfold stancePreview
  simp only
  rw [foldl_set_range _ _ _ (by rw [length_resize])]
  have : (resize trajectory (num_samples self control) dflt).drop (num_samples self control) = [] := by
    apply List.drop_of_length_le
    rw [length_resize]
  rw [this, List.append_nil]

theorem length_stancePreview (m : LibM α) (self : PreviewLocomotion α) (dflt : PreviewState α)
    (trajectory : PreviewTrajectory α) (state : PreviewState α) (control : PreviewControl α) :
    (stancePreview m self dflt trajectory state control).length = num_samples self control := by
  rw [stancePreview_eq]; simp

theorem getElem?_stancePreview (m : LibM α) (self : PreviewLocomotion α) (dflt : PreviewState α)
    (trajectory : PreviewTrajectory α) (state : PreviewState α) (control : PreviewControl α)
    (k : Nat) (hk : k < num_samples self control) :
    (stancePreview m self dflt trajectory state control)[k]? =
      some (stanceSample m self dflt state control k) := by
  rw [stancePreview_eq]
  simp [hk]

end StanceLemmas

/-! ## Claims about `stancePreview` -/

section StanceClaims

variable {α : Type} [LinearOrderedField α] [FloorRing α]

theorem num_samples_scenario (control : PreviewControl ℝ) (h : control.duration = 1 / 2) :
    num_samples (scenarioModel ℝ) control = 50 :=
  num_samples_of_multiple (scenarioModel ℝ) control 50 (by norm_num [scenarioModel])
    (by rw [h]; norm_num [scenarioModel])

/-- C3. Sample `k` of `stancePreview` stores, in the `x` and `y` components of
`com_pos`, the closed form `β1·e^{ωt} + β2·e^{-ωt} + (Δcop/T)·t + cop_initial` of
the specification at `t = sample_time·(k+1)`, with `ω = sqrt(g / slip_height)`,
`T = control.duration`, `Δp = com_pos − cop`, `Δcop = cop − terminal_cop` and
`Δv = com_vel` of the initial state. -/
theorem stancePreview_horizontal_pos (m : LibM α) (self : PreviewLocomotion α)
    (dflt : PreviewState α) (trajectory : PreviewTrajectory α) (state : PreviewState α)
    (control : PreviewControl α) (k : Nat) (hk : k < num_samples self control) :
    ∃ s, (stancePreview m self dflt trajectory state control)[k]? = some s ∧
      s.com_pos.x = specHorizontalPos m (m.sqrt (self.gravity_ / self.slip_.height))
        control.duration (state.com_pos.x - state.cop.x) (state.cop.x - control.terminal_cop.x)
        state.com_vel.x state.cop.x (self.sample_time_ * ((k : α) + 1)) ∧
      s.com_pos.y = specHorizontalPos m (m.sqrt (self.gravity_ / self.slip_.height))
        control.duration (state.com_pos.y - state.cop.y) (state.cop.y - control.terminal_cop.y)
        state.com_vel.y state.cop.y (self.sample_time_ * ((k : α) + 1)) := by
  refine ⟨_, getElem?_stancePreview m self dflt trajectory state control k hk, ?_, ?_⟩ <;>
    simp [stanceSample, stanceState, beta_1, beta_2, alpha, slip_omega, slip_hor_proj,
      slip_hor_disp, cop_disp, specHorizontalPos, specBeta1, specBeta2]

/-- C3, witness: sample 0 of the scenario of the specification. -/
theorem stancePreview_horizontal_pos_witness :
    ∃ s, (stancePreview ⟨Real.sqrt, Real.exp, Real.cos, Real.sin⟩ (scenarioModel ℝ)
        (zeroState ℝ) [] (scenarioState ℝ) (scenarioControl ℝ))[0]? = some s ∧
      s.com_pos.x = specHorizontalPos ⟨Real.sqrt, Real.exp, Real.cos, Real.sin⟩
        (Real.sqrt ((scenarioModel ℝ).gravity_ / (scenarioModel ℝ).slip_.height))
        (scenarioControl ℝ).duration ((scenarioState ℝ).com_pos.x - (scenarioState ℝ).cop.x)
        ((scenarioState ℝ).cop.x - (scenarioControl ℝ).terminal_cop.x)
        (scenarioState ℝ).com_vel.x (scenarioState ℝ).cop.x
        ((scenarioModel ℝ).sample_time_ * (((0 : Nat) : ℝ) + 1)) :=
  have h := stancePreview_horizontal_pos ⟨Real.sqrt, Real.exp, Real.cos, Real.sin⟩
    (scenarioModel ℝ) (zeroState ℝ) [] (scenarioState ℝ) (scenarioControl ℝ) 0
    (by rw [num_samples_scenario _ rfl]; norm_num)
  h.imp fun _ hs => ⟨hs.1, hs.2.1⟩

/-- What the code stores in the horizontal components of `com_vel`: the second
assignment (lines 158-159) overwrites the first one (lines 155-157). -/
theorem stanceState_com_vel_head2 (m : LibM α) (self : PreviewLocomotion α)
    (dflt state : PreviewState α) (control : PreviewControl α) (time : α) :
    (stanceState m self dflt state control time).com_vel.head2 =
      beta_1 m self state control * slip_omega m self ^ 2 * m.exp (slip_omega m self * time) +
        beta_2 m self state control * slip_omega m self ^ 2 *
          m.exp (-slip_omega m self * time) := by
  apply Vector2d.ext <;> simp [stanceState]

/-- C4 (the code departs from the claim). For `movingState` and
`trackingControl`, where `β1 = β2 = 0`, sample 0 stores `0` in `com_vel.x`,
while the velocity `β1·ω·e^{ωt} − β2·ω·e^{-ωt} + Δcop/T` of the specification
is `1` there. -/
theorem stancePreview_horizontal_vel_overwritten :
    ∃ s, (stancePreview ⟨Real.sqrt, Real.exp, Real.cos, Real.sin⟩ (scenarioModel ℝ)
        (zeroState ℝ) [] (movingState ℝ) (trackingControl ℝ))[0]? = some s ∧
      s.com_vel.x = 0 ∧
      specHorizontalVel ⟨Real.sqrt, Real.exp, Real.cos, Real.sin⟩
        (Real.sqrt ((scenarioModel ℝ).gravity_ / (scenarioModel ℝ).slip_.height))
        (trackingControl ℝ).duration ((movingState ℝ).com_pos.x - (movingState ℝ).cop.x)
        ((movingState ℝ).cop.x - (trackingControl ℝ).terminal_cop.x)
        (movingState ℝ).com_vel.x
        ((scenarioModel ℝ).sample_time_ * (((0 : Nat) : ℝ) + 1)) = 1 := by
  refine ⟨_, getElem?_stancePreview _ _ _ _ _ _ 0
    (by rw [num_samples_scenario _ rfl]; norm_num), ?_, ?_⟩
  · have h := congrArg Vector2d.x (stanceState_com_vel_head2
      ⟨Real.sqrt, Real.exp, Real.cos, Real.sin⟩ (scenarioModel ℝ) (zeroState ℝ) (movingState ℝ)
      (trackingControl ℝ) ((scenarioModel ℝ).sample_time_ * ((0 + 1 : Nat) : ℝ)))
    simp only [Vector3d.vec3_head2_x] at h
    rw [stanceSample, h]
    norm_num [beta_1, beta_2, slip_hor_proj, slip_hor_disp, cop_disp, movingState,
      trackingControl, scenarioState, scenarioControl, zeroState]
  · norm_num [specHorizontalVel, specBeta1, specBeta2, movingState, trackingControl,
      scenarioState, scenarioControl, zeroState]

/-- With no CoP displacement and no initial horizontal velocity the stored `x`
coordinate is `cop.x + Δp.x·(e^{ωt} + e^{-ωt})/2`. -/
theorem stanceState_com_pos_x_rest (m : LibM α) (self : PreviewLocomotion α)
    (dflt state : PreviewState α) (control : PreviewControl α) (time : α)
    (hcop : state.cop.x = control.terminal_cop.x) (hvel : state.com_vel.x = 0) :
    (stanceState m self dflt state control time).com_pos.x =
      (state.com_pos.x - state.cop.x) / 2 *
        (m.exp (slip_omega m self * time) + m.exp (-(slip_omega m self * time))) +
        state.cop.x := by
  simp [stanceState, beta_1, beta_2, slip_hor_proj, slip_hor_disp, cop_disp, hcop, hvel]
  ring

theorem lt_half_mul_exp_add_exp_neg (a c : ℝ) (ha : a ≠ 0) (hc : 0 < c) :
    c < c / 2 * (Real.exp a + Real.exp (-a)) + 0 := by
  have h1 := Real.add_one_lt_exp ha
  have h2 := Real.add_one_lt_exp (neg_ne_zero.2 ha)
  nlinarith

/-- C5, as stated, fails: `offsetState` has zero horizontal velocity and
`restControl` leaves the CoP where it is, yet sample 0 is not at the initial
`x` of the CoM (the pendulum, 0.1 m ahead of its CoP, falls forward). -/
theorem stancePreview_horizontal_not_constant :
    (offsetState ℝ).cop.head2 = (restControl ℝ).terminal_cop ∧
    (offsetState ℝ).com_vel.head2 = ⟨0, 0⟩ ∧
    ∃ s, (stancePreview ⟨Real.sqrt, Real.exp, Real.cos, Real.sin⟩ (scenarioModel ℝ)
        (zeroState ℝ) [] (offsetState ℝ) (restControl ℝ))[0]? = some s ∧
      s.com_pos.x ≠ (offsetState ℝ).com_pos.x := by
  refine ⟨rfl, rfl, _, getElem?_stancePreview _ _ _ _ _ _ 0
    (by rw [num_samples_scenario _ rfl]; norm_num), ?_⟩
  rw [stanceSample, stanceState_com_pos_x_rest _ _ _ _ _ _ rfl rfl]
  have hω : 0 < slip_omega ⟨Real.sqrt, Real.exp, Real.cos, Real.sin⟩ (scenarioModel ℝ) := by
    apply Real.sqrt_pos.2
    norm_num [scenarioModel]
  have ht : 0 < (scenarioModel ℝ).sample_time_ * ((0 + 1 : Nat) : ℝ) := by
    norm_num [scenarioModel]
  have ha := mul_pos hω ht
  have hc : (offsetState ℝ).com_pos.x - (offsetState ℝ).cop.x = (offsetState ℝ).com_pos.x := by
    norm_num [offsetState, scenarioState, zeroState]
  have hz : (offsetState ℝ).cop.x = 0 := rfl
  rw [hc, hz]
  exact ne_of_gt (lt_half_mul_exp_add_exp_neg _ _ ha.ne' (by norm_num [offsetState]))

/-- C5, amended. When the terminal CoP equals the initial CoP in `x, y`, the
initial horizontal CoM velocity is zero and the initial CoM is horizontally at
the CoP, the horizontal CoM position of every sample equals the initial
horizontal CoM position. -/
theorem stancePreview_horizontal_constant (m : LibM α) (self : PreviewLocomotion α)
    (dflt : PreviewState α) (trajectory : PreviewTrajectory α) (state : PreviewState α)
    (control : PreviewControl α) (k : Nat)
    (hcop : state.cop.head2 = control.terminal_cop)
    (hvel : state.com_vel.head2 = ⟨0, 0⟩)
    (hproj : state.com_pos.head2 = state.cop.head2)
    (hk : k < num_samples self control) :
    ∃ s, (stancePreview m self dflt trajectory state control)[k]? = some s ∧
      s.com_pos.head2 = state.com_pos.head2 := by
  refine ⟨_, getElem?_stancePreview m self dflt trajectory state control k hk, ?_⟩
  have hcx := congrArg Vector2d.x hcop
  have hcy := congrArg Vector2d.y hcop
  have hvx := congrArg Vector2d.x hvel
  have hvy := congrArg Vector2d.y hvel
  have hpx := congrArg Vector2d.x hproj
  have hpy := congrArg Vector2d.y hproj
  simp only [Vector3d.vec3_head2_x, Vector3d.vec3_head2_y] at hcx hcy hvx hvy hpx hpy
  apply Vector2d.ext <;>
    simp [stanceSample, stanceState, beta_1, beta_2, slip_hor_proj, slip_hor_disp, cop_disp,
      ← hcx, ← hcy, hvx, hvy, hpx, hpy]

/-- C5, witness: the scenario state (CoM above the CoP, at rest) with the
terminal CoP at the initial CoP; sample 0. -/
theorem stancePreview_horizontal_constant_witness :
    ∃ s, (stancePreview ⟨Real.sqrt, Real.exp, Real.cos, Real.sin⟩ (scenarioModel ℝ)
        (zeroState ℝ) [] (scenarioState ℝ) (restControl ℝ))[0]? = some s ∧
      s.com_pos.head2 = (scenarioState ℝ).com_pos.head2 :=
  stancePreview_horizontal_constant ⟨Real.sqrt, Real.exp, Real.cos, Real.sin⟩
    (scenarioModel ℝ) (zeroState ℝ) [] (scenarioState ℝ) (restControl ℝ) 0 rfl rfl rfl
    (by rw [num_samples_scenario _ rfl]; norm_num)

/-- C6. When `terminal_length` is the initial leg length `L0 = ‖com_pos − cop‖`,
every sample satisfies the spring-mass equation pointwise:
`com_acc.z = −ωs²·(com_pos.z − L0 + g/ωs²)` with `ωs = sqrt(stiffness / mass)`. -/
theorem stancePreview_vertical_ode (m : LibM α) (self : PreviewLocomotion α)
    (dflt : PreviewState α) (trajectory : PreviewTrajectory α) (state : PreviewState α)
    (control : PreviewControl α) (k : Nat)
    (hlen : control.terminal_length = initial_length m state)
    (hk : k < num_samples self control) :
    ∃ s, (stancePreview m self dflt trajectory state control)[k]? = some s ∧
      s.com_acc.z = -(m.sqrt (self.slip_.stiffness / self.mass_)) ^ 2 *
        (s.com_pos.z - initial_length m state +
          self.gravity_ / (m.sqrt (self.slip_.stiffness / self.mass_)) ^ 2) := by
  refine ⟨_, getElem?_stancePreview m self dflt trajectory state control k hk, ?_⟩
  simp [stanceSample, stanceState, delta_length, d_2, spring_omega, hlen]
  ring

theorem initial_length_scenario :
    initial_length ⟨Real.sqrt, Real.exp, Real.cos, Real.sin⟩ (scenarioState ℝ) = 3 / 5 := by
  show Real.sqrt _ = _
  rw [Real.sqrt_eq_iff_mul_self_eq_of_pos (by norm_num)]
  norm_num [scenarioState, zeroState]

/-- C6, witness: the scenario of the specification (terminal leg length 0.6,
CoM 0.6 above the CoP), sample 0. -/
theorem stancePreview_vertical_ode_witness :
    ∃ s, (stancePreview ⟨Real.sqrt, Real.exp, Real.cos, Real.sin⟩ (scenarioModel ℝ)
        (zeroState ℝ) [] (scenarioState ℝ) (scenarioControl ℝ))[0]? = some s ∧
      s.com_acc.z = -(Real.sqrt ((scenarioModel ℝ).slip_.stiffness / (scenarioModel ℝ).mass_)) ^ 2 *
        (s.com_pos.z - initial_length ⟨Real.sqrt, Real.exp, Real.cos, Real.sin⟩ (scenarioState ℝ) +
          (scenarioModel ℝ).gravity_ /
            (Real.sqrt ((scenarioModel ℝ).slip_.stiffness / (scenarioModel ℝ).mass_)) ^ 2) :=
  stancePreview_vertical_ode ⟨Real.sqrt, Real.exp, Real.cos, Real.sin⟩
    (scenarioModel ℝ) (zeroState ℝ) [] (scenarioState ℝ) (scenarioControl ℝ) 0
    (by rw [initial_length_scenario]; rfl)
    (by rw [num_samples_scenario _ rfl]; norm_num)

/-- The vertical closed form at relative time 0 is the initial CoM height. -/
theorem stanceState_zero_com_pos_z (m : LibM α) (self : PreviewLocomotion α)
    (dflt state : PreviewState α) (control : PreviewControl α)
    (hcos : m.cos 0 = 1) (hsin : m.sin 0 = 0) :
    (stanceState m self dflt state control 0).com_pos.z = state.com_pos.z := by
  simp [stanceState, d_1, hcos, hsin]
  ring

theorem initial_length_leaning :
    initial_length ⟨Real.sqrt, Real.exp, Real.cos, Real.sin⟩ (leaningState ℝ) = 1 / 2 := by
  show Real.sqrt _ = _
  rw [Real.sqrt_eq_iff_mul_self_eq_of_pos (by norm_num)]
  norm_num [leaningState, scenarioState, zeroState]

/-- C7, as stated, fails: for `leaningState` (at rest, leg length 0.5, CoM height
0.4) and `terminal_length = 0.5` the vertical closed form at `t = 0` is 0.4,
not the initial leg length. -/
theorem stanceState_zero_ne_initial_length :
    (leaningControl ℝ).terminal_length =
      initial_length ⟨Real.sqrt, Real.exp, Real.cos, Real.sin⟩ (leaningState ℝ) ∧
    (leaningState ℝ).com_vel.z = 0 ∧
    (stanceState ⟨Real.sqrt, Real.exp, Real.cos, Real.sin⟩ (scenarioModel ℝ) (zeroState ℝ)
      (leaningState ℝ) (leaningControl ℝ) 0).com_pos.z ≠
      initial_length ⟨Real.sqrt, Real.exp, Real.cos, Real.sin⟩ (leaningState ℝ) := by
  rw [initial_length_leaning,
    stanceState_zero_com_pos_z _ _ _ _ _ Real.cos_zero Real.sin_zero]
  refine ⟨rfl, rfl, ?_⟩
  norm_num [leaningState]

/-- C7, amended. With `cos 0 = 1` and `sin 0 = 0`, for every stance-phase call
whose `terminal_length` is the initial leg length and whose initial vertical
velocity is zero, the vertical closed form of `stancePreview` at relative time
0 is the initial CoM height `com_pos.z`; it is the initial leg length exactly
when `com_pos.z` is. -/
theorem stanceState_zero_vertical (m : LibM α) (self : PreviewLocomotion α)
    (dflt state : PreviewState α) (control : PreviewControl α)
    (hcos : m.cos 0 = 1) (hsin : m.sin 0 = 0)
    (_hlen : control.terminal_length = initial_length m state)
    (_hvz : state.com_vel.z = 0) :
    (stanceState m self dflt state control 0).com_pos.z = state.com_pos.z ∧
    ((stanceState m self dflt state control 0).com_pos.z = initial_length m state ↔
      state.com_pos.z = initial_length m state) := by
  have h := stanceState_zero_com_pos_z m self dflt state control hcos hsin
  exact ⟨h, by rw [h]⟩

/-- C7, witness: the scenario of the specification, where the CoM is 0.6 above
the CoP and both numbers agree. -/
theorem stanceState_zero_vertical_witness :
    (stanceState ⟨Real.sqrt, Real.exp, Real.cos, Real.sin⟩ (scenarioModel ℝ) (zeroState ℝ)
      (scenarioState ℝ) (scenarioControl ℝ) 0).com_pos.z = 3 / 5 :=
  (stanceState_zero_vertical ⟨Real.sqrt, Real.exp, Real.cos, Real.sin⟩ (scenarioModel ℝ)
    (zeroState ℝ) (scenarioState ℝ) (scenarioControl ℝ) Real.cos_zero Real.sin_zero
    (by rw [initial_length_scenario]; rfl) rfl).1

end StanceClaims

/-! ## Claims about `flightPreview` -/

section FlightClaims

variable {α : Type} [LinearOrderedField α] [FloorRing α]

/-- `flightPreview` returns the trajectory it was handed. -/
theorem flightPreview_eq (self : PreviewLocomotion α) (dflt : PreviewState α)
    (trajectory : PreviewTrajectory α) (state : PreviewState α) (control : PreviewControl α) :
    flightPreview self dflt trajectory state control = trajectory := by
  unfold flightPreview
  simp only
  induction List.range (num_samples self control) with
  | nil => rfl
  | cons k ks ih => simp [ih]

/-- C8 (the code departs from the claim). In the scenario of the specification
(`duration = 50 · sample_period`) `flightPreview`, handed an empty trajectory,
leaves it empty, although the state it computes for index 0 is the projectile
state at `t = sample_period`. -/
theorem flightPreview_discards_samples :
    num_samples (scenarioModel ℝ) (scenarioControl ℝ) = 50 ∧
    flightPreview (scenarioModel ℝ) (zeroState ℝ) [] (scenarioState ℝ) (scenarioControl ℝ) = [] ∧
    (flightSample (scenarioModel ℝ) (zeroState ℝ) (scenarioState ℝ) 0).com_pos =
      (scenarioState ℝ).com_pos + (scenarioState ℝ).com_vel * (1 / 100 : ℝ) +
        ((1 / 2 : ℝ) * (⟨0, 0, -(981 / 100)⟩ : Vector3d ℝ)) * (1 / 100 : ℝ) ^ 2 :=
  ⟨num_samples_scenario _ rfl, flightPreview_eq _ _ _ _ _, by
    apply Vector3d.ext <;> norm_num [flightSample, scenarioModel, scenarioState, zeroState]⟩

end FlightClaims

/-! ## Lemmas: maps and `addSwingPattern` -/

section SwingLemmas

variable {α : Type} [LinearOrderedField α] [FloorRing α]

theorem find_set_self (mp : BodyVector α) (name : String) (v : Vector3d α) :
    BodyVector.find (BodyVector.set mp name v) name = some v := by
  induction mp with
  | nil => simp [BodyVector.set, BodyVector.find]
  | cons e rest ih =>
    obtain ⟨k, w⟩ := e
    unfold BodyVector.set
    by_cases h1 : name < k
    · simp [h1, BodyVector.find]
    · by_cases h2 : k = name
      · simp [h1, h2, BodyVector.find]
      · simp [h1, h2, BodyVector.find, ih]

theorem find_set_ne (mp : BodyVector α) (name other : String) (v : Vector3d α)
    (h : other ≠ name) :
    BodyVector.find (BodyVector.set mp name v) other = BodyVector.find mp other := by
  induction mp with
  | nil => simp [BodyVector.set, BodyVector.find, Ne.symm h]
  | cons e rest ih =>
    obtain ⟨k, w⟩ := e
    unfold BodyVector.set
    by_cases h1 : name < k
    · simp [h1, BodyVector.find, Ne.symm h]
    · by_cases h2 : k = name
      · subst h2
        simp [h1, BodyVector.find, Ne.symm h]
      · by_cases h3 : k = other
        · subst h3
          simp [h1, h2, BodyVector.find]
        · simp [h1, h2, h3, BodyVector.find, ih]

theorem find_of_mem (mp : BodyVector α) (e : String × Vector3d α) (h : e ∈ mp) :
    ∃ a, BodyVector.find mp e.1 = some a := by
  induction mp with
  | nil => cases h
  | cons e' rest ih =>
    obtain ⟨k, w⟩ := e'
    by_cases hk : k = e.1
    · exact ⟨w, by simp [BodyVector.find, hk]⟩
    · rcases List.mem_cons.1 h with h' | h'
      · exact absurd (by rw [h']) hk
      · obtain ⟨a, ha⟩ := ih h'
        exact ⟨a, by simp [BodyVector.find, hk, ha]⟩

theorem mem_keys_of_find (mp : BodyVector α) (name : String) (a : Vector3d α)
    (h : BodyVector.find mp name = some a) : name ∈ mp.map Prod.fst := by
  induction mp with
  | nil => simp [BodyVector.find] at h
  | cons e rest ih =>
    obtain ⟨k, w⟩ := e
    by_cases hk : k = name
    · simp [hk]
    · simp only [BodyVector.find, hk, if_false] at h
      simp [ih h]

/-- The loop `for k < n: trajectory[k] = f k trajectory[k]` over a trajectory of
at least `n` samples never leaves the vector and rewrites its first `n`
samples. -/
theorem foldlM_setSample (f : Nat → PreviewState α → PreviewState α) (n : Nat)
    (traj : PreviewTrajectory α) (hn : n ≤ traj.length) :
    (List.range n).foldlM (fun t k => setSample t k (f k)) traj =
      some (traj.mapIdx fun i s => if i < n then f i s else s) := by
  induction n with
  | zero =>
    simp only [List.range_zero, List.foldlM_nil, Option.pure_def, Option.some.injEq]
    apply List.ext_getElem?
    intro i
    simp
  | succ n ih =>
    have hlt : n < traj.length := hn
    rw [List.range_succ, List.foldlM_append, ih (Nat.le_of_lt hlt)]
    simp only [Option.bind_eq_bind, Option.some_bind, List.foldlM_cons, List.foldlM_nil,
      setSample, List.getElem?_mapIdx, List.getElem?_eq_getElem hlt, Option.map_some',
      Nat.lt_irrefl, if_false, Option.pure_def, Option.bind_some]
    congr 1
    apply List.ext_getElem?
    intro i
    rw [List.getElem?_set]
    by_cases hi : n = i
    · subst hi
      simp [hlt]
    · simp only [hi, if_false, List.getElem?_mapIdx]
      by_cases h1 : i < n
      · simp [h1, Nat.lt_succ_of_lt h1]
      · have : ¬ i < n + 1 := by omega
        simp [h1, this]

theorem mapIdx_if_lt_length {β : Type} (f : Nat → β → β) (l : List β) :
    (l.mapIdx fun i s => if i < l.length then f i s else s) = l.mapIdx f := by
  apply List.ext_getElem?
  intro i
  simp only [List.getElem?_mapIdx]
  by_cases hi : i < l.length
  · simp [hi]
  · simp [List.getElem?_eq_none (Nat.le_of_not_lt hi)]

/-- One iteration of the loop over the feet, on a trajectory that has as many
samples as the iteration recomputes: every sample is rewritten by `footWrite`. -/
theorem swingFoot_eq (gen : SwingGenerator α) (self : PreviewLocomotion α)
    (state : PreviewState α) (control : PreviewControl α) (sample_time : α)
    (traj : PreviewTrajectory α) (name : String) (actual_pos : Vector3d α)
    (first : PreviewState α)
    (hfind : BodyVector.find state.foot_pos name = some actual_pos)
    (hfirst : traj[0]? = some first)
    (hlen : toUnsigned (control.duration / sample_time) = traj.length) :
    swingFoot gen self state control sample_time traj name =
      some (traj.mapIdx fun k s =>
        footWrite gen self state control sample_time first.com_pos name actual_pos k s) := by
  unfold swingFoot
  rw [hfind]
  cases htarget : BodyVector.find control.foot_target name with
  | none =>
    simp only [hfirst, hlen]
    rw [foldlM_setSample _ _ _ (Nat.le_refl _), mapIdx_if_lt_length]
    simp [footWrite, htarget]
  | some target_pos =>
    simp only [hlen]
    rw [foldlM_setSample _ _ _ (Nat.le_refl _), mapIdx_if_lt_length]
    simp [footWrite, htarget]

theorem footWrite_sameBase (gen : SwingGenerator α) (self : PreviewLocomotion α)
    (state : PreviewState α) (control : PreviewControl α) (sample_time : α)
    (first_com : Vector3d α) (name : String) (actual_pos : Vector3d α) (k : Nat)
    (s : PreviewState α) :
    SameBase s (footWrite gen self state control sample_time first_com name actual_pos k s) := by
  unfold footWrite
  cases BodyVector.find control.foot_target name <;>
    exact ⟨rfl, rfl, rfl, rfl, rfl, rfl, rfl, rfl, rfl⟩

theorem footWrite_footIs (gen : SwingGenerator α) (self : PreviewLocomotion α)
    (state : PreviewState α) (control : PreviewControl α) (sample_time : α)
    (first_com : Vector3d α) (name : String) (actual_pos : Vector3d α) (k : Nat)
    (s : PreviewState α) :
    FootIs (footWrite gen self state control sample_time first_com name actual_pos k s) name
      (footValue gen self state control sample_time first_com name actual_pos k s.com_pos) := by
  unfold footWrite footValue FootIs
  cases BodyVector.find control.foot_target name <;>
    simp [writeSwing, writePlanted, find_set_self]

theorem footWrite_footIs_other (gen : SwingGenerator α) (self : PreviewLocomotion α)
    (state : PreviewState α) (control : PreviewControl α) (sample_time : α)
    (first_com : Vector3d α) (name other : String) (actual_pos : Vector3d α) (k : Nat)
    (s : PreviewState α) (val : Vector3d α × Vector3d α × Vector3d α) (hne : other ≠ name)
    (h : FootIs s other val) :
    FootIs (footWrite gen self state control sample_time first_com name actual_pos k s)
      other val := by
  unfold footWrite FootIs
  unfold FootIs at h
  cases BodyVector.find control.foot_target name <;>
    simpa [writeSwing, writePlanted, find_set_ne _ _ _ _ hne] using h

theorem SameBase.comp {s s' s'' : PreviewState α} (h : SameBase s s') (h' : SameBase s' s'') :
    SameBase s s'' :=
  ⟨h'.time.trans h.time, h'.com_pos.trans h.com_pos, h'.com_vel.trans h.com_vel,
    h'.com_acc.trans h.com_acc, h'.head_pos.trans h.head_pos, h'.head_vel.trans h.head_vel,
    h'.head_acc.trans h.head_acc, h'.cop.trans h.cop,
    h'.support_region.trans h.support_region⟩

/-- The loop over the feet. `traj0` is the trajectory at loop entry, `t` the
trajectory before the remaining entries `feet` are processed. -/
theorem foldlM_swingFoot (gen : SwingGenerator α) (self : PreviewLocomotion α)
    (state : PreviewState α) (control : PreviewControl α) (sample_time : α)
    (traj0 : PreviewTrajectory α) (first : PreviewState α)
    (hfirst : traj0[0]? = some first)
    (hlen : toUnsigned (control.duration / sample_time) = traj0.length)
    (feet : List (String × Vector3d α)) :
    (∀ e ∈ feet, ∃ a, BodyVector.find state.foot_pos e.1 = some a) →
    ∀ t : PreviewTrajectory α, t.length = traj0.length →
    (∀ (k : Nat) s s', traj0[k]? = some s → t[k]? = some s' → SameBase s s') →
    ∃ out, feet.foldlM
        (fun trajectory contact =>
          swingFoot gen self state control sample_time trajectory contact.1) t = some out ∧
      out.length = traj0.length ∧
      (∀ (k : Nat) s s', traj0[k]? = some s → out[k]? = some s' → SameBase s s') ∧
      ∀ name actual, BodyVector.find state.foot_pos name = some actual →
        ((∀ (k : Nat) s s', traj0[k]? = some s → t[k]? = some s' →
            FootIs s' name (footValue gen self state control sample_time first.com_pos name
              actual k s.com_pos)) ∨ name ∈ feet.map Prod.fst) →
        ∀ (k : Nat) s s', traj0[k]? = some s → out[k]? = some s' →
          FootIs s' name (footValue gen self state control sample_time first.com_pos name
            actual k s.com_pos) := by
  induction feet with
  | nil =>
    intro _ t ht hbase
    refine ⟨t, rfl, ht, hbase, ?_⟩
    intro name actual _ h k s s' hs hs'
    rcases h with h | h
    · exact h k s s' hs hs'
    · simp at h
  | cons e rest ih =>
    intro hfeet t ht hbase
    obtain ⟨a, ha⟩ := hfeet e (List.mem_cons_self _ _)
    have h0 : 0 < traj0.length := (List.getElem?_eq_some_iff.1 hfirst).1
    have h0t : 0 < t.length := ht ▸ h0
    obtain ⟨first', hfirst'⟩ : ∃ f, t[0]? = some f := ⟨t[0], List.getElem?_eq_getElem h0t⟩
    have hcom : first'.com_pos = first.com_pos := (hbase 0 first _ hfirst hfirst').com_pos
    have hstep := swingFoot_eq gen self state control sample_time t e.1 a _ ha hfirst'
      (hlen.trans ht.symm)
    rw [hcom] at hstep
    have hget : ∀ k s', (t.mapIdx fun k s =>
        footWrite gen self state control sample_time first.com_pos e.1 a k s)[k]? = some s' →
        ∃ s1, t[k]? = some s1 ∧
          s' = footWrite gen self state control sample_time first.com_pos e.1 a k s1 := by
      intro k s' h
      rw [List.getElem?_mapIdx] at h
      cases h1 : t[k]? with
      | none => simp [h1] at h
      | some s1 =>
        rw [h1] at h
        exact ⟨s1, rfl, (Option.some.inj h).symm⟩
    obtain ⟨out, hout, hlen', hbase', hfeet'⟩ := ih
      (fun e' he' => hfeet e' (List.mem_cons_of_mem _ he'))
      (t.mapIdx fun k s =>
        footWrite gen self state control sample_time first.com_pos e.1 a k s)
      (by rw [List.length_mapIdx, ht])
      (by
        intro k s s' hs hs'
        obtain ⟨s1, hs1, rfl⟩ := hget k s' hs'
        exact (hbase k s s1 hs hs1).comp (footWrite_sameBase _ _ _ _ _ _ _ _ _ _))
    refine ⟨out, ?_, hlen', hbase', ?_⟩
    · rw [List.foldlM_cons, hstep]
      exact hout
    · intro name actual hname h k s s' hs hs'
      apply hfeet' name actual hname _ k s s' hs hs'
      by_cases hne : name = e.1
      · left
        intro k s s' hs hs'
        obtain ⟨s1, hs1, rfl⟩ := hget k s' hs'
        have hact : a = actual := by
          rw [← hne, hname] at ha
          exact (Option.some.inj ha).symm
        rw [← (hbase k s s1 hs hs1).com_pos, hne, ← hact]
        exact footWrite_footIs _ _ _ _ _ _ _ _ _ _
      · rcases h with h | h
        · left
          intro k s s' hs hs'
          obtain ⟨s1, hs1, rfl⟩ := hget k s' hs'
          exact footWrite_footIs_other _ _ _ _ _ _ _ _ _ _ _ _ hne (h k s s1 hs hs1)
        · right
          simp only [List.map_cons, List.mem_cons] at h
          rcases h with h | h
          · exact absurd h hne
          · exact h

/-- What `addSwingPattern` does to a trajectory whose length is the sample
count it recomputes from the first two time stamps: it returns a trajectory of
the same length, the fields other than the foot maps are kept, and the foot
maps of sample `k` hold `footValue` for every foot of `state.foot_pos`. -/
theorem addSwingPattern_spec (gen : SwingGenerator α) (self : PreviewLocomotion α)
    (traj : PreviewTrajectory α) (state : PreviewState α) (control : PreviewControl α)
    (s0 s1 : PreviewState α) (h0 : traj[0]? = some s0) (h1 : traj[1]? = some s1)
    (hlen : toUnsigned (control.duration / (s1.time - s0.time)) = traj.length) :
    ∃ out, addSwingPattern gen self traj state control = some out ∧
      out.length = traj.length ∧
      (∀ (k : Nat) s s', traj[k]? = some s → out[k]? = some s' → SameBase s s') ∧
      ∀ name actual, BodyVector.find state.foot_pos name = some actual →
        ∀ (k : Nat) s s', traj[k]? = some s → out[k]? = some s' →
          FootIs s' name (footValue gen self state control (s1.time - s0.time) s0.com_pos name
            actual k s.com_pos) := by
  obtain ⟨out, hout, hlen', hbase, hfeet⟩ := foldlM_swingFoot gen self state control
    (s1.time - s0.time) traj s0 h0 hlen state.foot_pos
    (fun e he => find_of_mem _ e he) traj rfl
    (fun k s s' hs hs' => by
      rw [hs] at hs'
      cases hs'
      exact ⟨rfl, rfl, rfl, rfl, rfl, rfl, rfl, rfl, rfl⟩)
  refine ⟨out, ?_, hlen', hbase, ?_⟩
  · unfold addSwingPattern
    simp only [h0, h1]
    exact hout
  · intro name actual hname k s s' hs hs'
    exact hfeet name actual hname (Or.inr (mem_keys_of_find _ _ _ hname)) k s s' hs hs'

/-- On a trajectory shaped as `stancePreview` leaves it, with at least two
samples, the sample period read back at line 219 is `sample_time_` and the
sample count recomputed at lines 243 and 264 is the length. -/
theorem stanceTimed_first_two (self : PreviewLocomotion α) (state : PreviewState α)
    (control : PreviewControl α) (traj : PreviewTrajectory α)
    (hshape : StanceTimed self state control traj) (h2 : 2 ≤ traj.length) :
    ∃ s0 s1, traj[0]? = some s0 ∧ traj[1]? = some s1 ∧
      s1.time - s0.time = self.sample_time_ ∧
      toUnsigned (control.duration / (s1.time - s0.time)) = traj.length := by
  have h0 : traj[0]? = some traj[0] := List.getElem?_eq_getElem (by omega)
  have h1 : traj[1]? = some traj[1] := List.getElem?_eq_getElem (by omega)
  have ht : traj[1].time - traj[0].time = self.sample_time_ := by
    rw [hshape.2 0 _ h0, hshape.2 1 _ h1]
    push_cast
    ring
  refine ⟨_, _, h0, h1, ht, ?_⟩
  rw [ht, hshape.1]
  rfl

theorem addSwingPattern_timed (gen : SwingGenerator α) (self : PreviewLocomotion α)
    (traj : PreviewTrajectory α) (state : PreviewState α) (control : PreviewControl α)
    (hshape : StanceTimed self state control traj) (h2 : 2 ≤ traj.length) :
    ∃ out s0, traj[0]? = some s0 ∧ addSwingPattern gen self traj state control = some out ∧
      out.length = traj.length ∧
      (∀ (k : Nat) s', out[k]? = some s' → ∃ s, traj[k]? = some s ∧ SameBase s s' ∧
        ∀ name actual, BodyVector.find state.foot_pos name = some actual →
          FootIs s' name (footValue gen self state control self.sample_time_ s0.com_pos name
            actual k s.com_pos)) := by
  obtain ⟨s0, s1, h0, h1, ht, hlen⟩ := stanceTimed_first_two self state control traj hshape h2
  obtain ⟨out, hout, hlen', hbase, hfeet⟩ :=
    addSwingPattern_spec gen self traj state control s0 s1 h0 h1 hlen
  refine ⟨out, s0, h0, hout, hlen', ?_⟩
  intro k s' hs'
  have hk : k < traj.length := hlen' ▸ (List.getElem?_eq_some_iff.1 hs').1
  have hs : traj[k]? = some traj[k] := List.getElem?_eq_getElem hk
  refine ⟨_, hs, hbase k _ _ hs hs', ?_⟩
  intro name actual hname
  have := hfeet name actual hname k _ _ hs hs'
  rwa [ht] at this

theorem swingTime_eq_min (state : PreviewState α) (control : PreviewControl α)
    (sample_time : α) (k : Nat) :
    swingTime state control sample_time k =
      min (state.time + sample_time * ((k : α) + 1)) (state.time + control.duration) := by
  unfold swingTime
  simp only [gt_iff_lt]
  push_cast
  by_cases h : state.time + control.duration < state.time + sample_time * ((k : α) + 1)
  · rw [if_pos h, min_eq_right h.le]
  · rw [if_neg h, min_eq_left (not_lt.1 h)]

/-! ### The loops when the recomputed count is not the length -/

theorem addSwingPattern_short (gen : SwingGenerator α) (self : PreviewLocomotion α)
    (traj : PreviewTrajectory α) (state : PreviewState α) (control : PreviewControl α)
    (h : traj.length < 2) :
    traj[1]? = none ∧ addSwingPattern gen self traj state control = none := by
  have h1 : traj[1]? = none := List.getElem?_eq_none (by omega)
  refine ⟨h1, ?_⟩
  unfold addSwingPattern
  rw [h1]

theorem toUnsigned_eq (x : α) (n : Nat) (h0 : 0 ≤ x) (h1 : (n : α) ≤ x + 1 / 2)
    (h2 : x + 1 / 2 < (n : α) + 1) : toUnsigned x = n := by
  unfold toUnsigned cround
  rw [if_pos h0]
  have hf : Int.floor (x + 1 / 2) = (n : Int) := by
    rw [Int.floor_eq_iff]
    exact ⟨by exact_mod_cast h1, by exact_mod_cast h2⟩
  rw [hf, Int.toNat_ofNat]

/-- The loop `for k < n: trajectory[k] = ...` over a trajectory of fewer than
`n` samples reaches an index out of range. -/
theorem foldlM_setSample_overrun (f : Nat → PreviewState α → PreviewState α) (n : Nat)
    (traj : PreviewTrajectory α) (hn : traj.length < n) :
    (List.range n).foldlM (fun t k => setSample t k (f k)) traj = none := by
  induction n with
  | zero => exact absurd hn (Nat.not_lt_zero _)
  | succ n ih =>
    rw [List.range_succ, List.foldlM_append]
    by_cases h : traj.length < n
    · rw [ih h]
      rfl
    · have hlen : traj.length = n := by omega
      rw [foldlM_setSample f n traj (by omega)]
      simp only [Option.bind_eq_bind, Option.some_bind, List.foldlM_cons, setSample]
      rw [List.getElem?_eq_none (by simp [hlen])]
      rfl

theorem swingFoot_of_le (gen : SwingGenerator α) (self : PreviewLocomotion α)
    (state : PreviewState α) (control : PreviewControl α) (sample_time : α)
    (traj : PreviewTrajectory α) (name : String) (actual_pos : Vector3d α)
    (first : PreviewState α)
    (hfind : BodyVector.find state.foot_pos name = some actual_pos)
    (hfirst : traj[0]? = some first)
    (hle : toUnsigned (control.duration / sample_time) ≤ traj.length) :
    swingFoot gen self state control sample_time traj name =
      some (traj.mapIdx fun k s =>
        if k < toUnsigned (control.duration / sample_time) then
          footWrite gen self state control sample_time first.com_pos name actual_pos k s
        else s) := by
  unfold swingFoot
  rw [hfind]
  cases htarget : BodyVector.find control.foot_target name with
  | none =>
    simp only [hfirst]
    rw [foldlM_setSample _ _ _ hle]
    simp [footWrite, htarget]
  | some target_pos =>
    simp only
    rw [foldlM_setSample _ _ _ hle]
    simp [footWrite, htarget]

theorem swingFoot_overrun (gen : SwingGenerator α) (self : PreviewLocomotion α)
    (state : PreviewState α) (control : PreviewControl α) (sample_time : α)
    (traj : PreviewTrajectory α) (name : String) (actual_pos : Vector3d α)
    (hfind : BodyVector.find state.foot_pos name = some actual_pos)
    (hlt : traj.length < toUnsigned (control.duration / sample_time)) :
    swingFoot gen self state control sample_time traj name = none := by
  unfold swingFoot
  rw [hfind]
  cases BodyVector.find control.foot_target name with
  | none =>
    cases traj[0]? with
    | none => rfl
    | some first =>
      simp only
      rw [foldlM_setSample_overrun _ _ _ hlt]
  | some target_pos =>
    simp only
    rw [foldlM_setSample_overrun _ _ _ hlt]

theorem SameBase.same (s : PreviewState α) : SameBase s s :=
  ⟨rfl, rfl, rfl, rfl, rfl, rfl, rfl, rfl, rfl⟩

/-- The loop over the feet when the recomputed count `n` does not exceed the
length: the samples `k < n` get their foot entries, the samples from `n` on
are left as they were. -/
theorem foldlM_swingFoot_le (gen : SwingGenerator α) (self : PreviewLocomotion α)
    (state : PreviewState α) (control : PreviewControl α) (sample_time : α)
    (traj0 : PreviewTrajectory α) (first : PreviewState α)
    (hfirst : traj0[0]? = some first)
    (hle : toUnsigned (control.duration / sample_time) ≤ traj0.length)
    (feet : List (String × Vector3d α)) :
    (∀ e ∈ feet, ∃ a, BodyVector.find state.foot_pos e.1 = some a) →
    ∀ t : PreviewTrajectory α, t.length = traj0.length →
    (∀ (k : Nat) s s', traj0[k]? = some s → t[k]? = some s' → SameBase s s') →
    (∀ (k : Nat), toUnsigned (control.duration / sample_time) ≤ k → t[k]? = traj0[k]?) →
    ∃ out, feet.foldlM
        (fun trajectory contact =>
          swingFoot gen self state control sample_time trajectory contact.1) t = some out ∧
      out.length = traj0.length ∧
      (∀ (k : Nat) s s', traj0[k]? = some s → out[k]? = some s' → SameBase s s') ∧
      (∀ (k : Nat), toUnsigned (control.duration / sample_time) ≤ k →
        out[k]? = traj0[k]?) ∧
      ∀ name actual, BodyVector.find state.foot_pos name = some actual →
        ((∀ (k : Nat) s s', k < toUnsigned (control.duration / sample_time) →
            traj0[k]? = some s → t[k]? = some s' →
            FootIs s' name (footValue gen self state control sample_time first.com_pos name
              actual k s.com_pos)) ∨ name ∈ feet.map Prod.fst) →
        ∀ (k : Nat) s s', k < toUnsigned (control.duration / sample_time) →
          traj0[k]? = some s → out[k]? = some s' →
          FootIs s' name (footValue gen self state control sample_time first.com_pos name
            actual k s.com_pos) := by
  induction feet with
  | nil =>
    intro _ t ht hbase hkeep
    refine ⟨t, rfl, ht, hbase, hkeep, ?_⟩
    intro name actual _ h k s s' hk hs hs'
    rcases h with h | h
    · exact h k s s' hk hs hs'
    · simp at h
  | cons e rest ih =>
    intro hfeet t ht hbase hkeep
    obtain ⟨a, ha⟩ := hfeet e (List.mem_cons_self _ _)
    have h0 : 0 < traj0.length := (List.getElem?_eq_some_iff.1 hfirst).1
    have h0t : 0 < t.length := ht ▸ h0
    obtain ⟨first', hfirst'⟩ : ∃ f, t[0]? = some f := ⟨t[0], List.getElem?_eq_getElem h0t⟩
    have hcom : first'.com_pos = first.com_pos := (hbase 0 first _ hfirst hfirst').com_pos
    have hstep := swingFoot_of_le gen self state control sample_time t e.1 a _ ha hfirst'
      (ht ▸ hle)
    rw [hcom] at hstep
    have hget : ∀ (k : Nat) s', (t.mapIdx fun k s =>
        if k < toUnsigned (control.duration / sample_time) then
          footWrite gen self state control sample_time first.com_pos e.1 a k s
        else s)[k]? = some s' →
        ∃ s1, t[k]? = some s1 ∧
          s' = if k < toUnsigned (control.duration / sample_time) then
            footWrite gen self state control sample_time first.com_pos e.1 a k s1 else s1 := by
      intro k s' h
      rw [List.getElem?_mapIdx] at h
      cases h1 : t[k]? with
      | none => simp [h1] at h
      | some s1 =>
        rw [h1] at h
        exact ⟨s1, rfl, (Option.some.inj h).symm⟩
    obtain ⟨out, hout, hlen', hbase', hkeep', hfeet'⟩ := ih
      (fun e' he' => hfeet e' (List.mem_cons_of_mem _ he'))
      (t.mapIdx fun k s =>
        if k < toUnsigned (control.duration / sample_time) then
          footWrite gen self state control sample_time first.com_pos e.1 a k s
        else s)
      (by rw [List.length_mapIdx, ht])
      (by
        intro k s s' hs hs'
        obtain ⟨s1, hs1, rfl⟩ := hget k s' hs'
        split_ifs
        · exact (hbase k s s1 hs hs1).comp (footWrite_sameBase _ _ _ _ _ _ _ _ _ _)
        · exact hbase k s s1 hs hs1)
      (by
        intro k hk
        rw [List.getElem?_mapIdx, ← hkeep k hk]
        cases t[k]? with
        | none => rfl
        | some s1 => simp [Nat.not_lt.2 hk])
    refine ⟨out, ?_, hlen', hbase', hkeep', ?_⟩
    · rw [List.foldlM_cons, hstep]
      exact hout
    · intro name actual hname h k s s' hk hs hs'
      apply hfeet' name actual hname _ k s s' hk hs hs'
      by_cases hne : name = e.1
      · left
        intro k s s' hk hs hs'
        obtain ⟨s1, hs1, rfl⟩ := hget k s' hs'
        have hact : a = actual := by
          rw [← hne, hname] at ha
          exact (Option.some.inj ha).symm
        rw [if_pos hk, ← (hbase k s s1 hs hs1).com_pos, hne, ← hact]
        exact footWrite_footIs _ _ _ _ _ _ _ _ _ _
      · rcases h with h | h
        · left
          intro k s s' hk hs hs'
          obtain ⟨s1, hs1, rfl⟩ := hget k s' hs'
          rw [if_pos hk]
          exact footWrite_footIs_other _ _ _ _ _ _ _ _ _ _ _ _ hne (h k s s1 hk hs hs1)
        · right
          simp only [List.map_cons, List.mem_cons] at h
          rcases h with h | h
          · exact absurd h hne
          · exact h

/-- What `addSwingPattern` does to a trajectory of at least two samples when
the sample count `n` it recomputes from the first two time stamps does not
exceed the length: it returns a trajectory of the same length, the fields other
than the foot maps are kept, the samples `k < n` hold `footValue` for every
foot of `state.foot_pos`, and the samples from `n` on are not touched. -/
theorem addSwingPattern_of_le (gen : SwingGenerator α) (self : PreviewLocomotion α)
    (traj : PreviewTrajectory α) (state : PreviewState α) (control : PreviewControl α)
    (s0 s1 : PreviewState α) (h0 : traj[0]? = some s0) (h1 : traj[1]? = some s1)
    (hle : toUnsigned (control.duration / (s1.time - s0.time)) ≤ traj.length) :
    ∃ out, addSwingPattern gen self traj state control = some out ∧
      out.length = traj.length ∧
      (∀ (k : Nat) s s', traj[k]? = some s → out[k]? = some s' → SameBase s s') ∧
      (∀ (k : Nat), toUnsigned (control.duration / (s1.time - s0.time)) ≤ k →
        out[k]? = traj[k]?) ∧
      ∀ name actual, BodyVector.find state.foot_pos name = some actual →
        ∀ (k : Nat) s s', k < toUnsigned (control.duration / (s1.time - s0.time)) →
          traj[k]? = some s → out[k]? = some s' →
          FootIs s' name (footValue gen self state control (s1.time - s0.time) s0.com_pos name
            actual k s.com_pos) := by
  obtain ⟨out, hout, hlen', hbase, hkeep, hfeet⟩ := foldlM_swingFoot_le gen self state control
    (s1.time - s0.time) traj s0 h0 hle state.foot_pos
    (fun e he => find_of_mem _ e he) traj rfl
    (fun k s s' hs hs' => by
      rw [hs] at hs'
      cases hs'
      exact SameBase.same s)
    (fun _ _ => rfl)
  refine ⟨out, ?_, hlen', hbase, hkeep, ?_⟩
  · unfold addSwingPattern
    simp only [h0, h1]
    exact hout
  · intro name actual hname k s s' hk hs hs'
    exact hfeet name actual hname (Or.inr (mem_keys_of_find _ _ _ hname)) k s s' hk hs hs'

/-- When the sample count `addSwingPattern` recomputes from the first two time
stamps exceeds the length of the trajectory and there is a foot, the first
iteration of the loop over the feet writes past the end of the trajectory. -/
theorem addSwingPattern_overrun (gen : SwingGenerator α) (self : PreviewLocomotion α)
    (traj : PreviewTrajectory α) (state : PreviewState α) (control : PreviewControl α)
    (s0 s1 : PreviewState α) (h0 : traj[0]? = some s0) (h1 : traj[1]? = some s1)
    (hlt : traj.length < toUnsigned (control.duration / (s1.time - s0.time)))
    (hfeet : state.foot_pos ≠ []) :
    addSwingPattern gen self traj state control = none := by
  unfold addSwingPattern
  simp only [h0, h1]
  cases hfp : state.foot_pos with
  | nil => exact absurd hfp hfeet
  | cons e rest =>
    obtain ⟨a, ha⟩ := find_of_mem state.foot_pos e (by rw [hfp]; exact List.mem_cons_self _ _)
    rw [List.foldlM_cons, swingFoot_overrun gen self state control _ traj e.1 a ha hlt]
    rfl

end SwingLemmas

/-! ## Claims about `addSwingPattern` -/

section SwingClaims

variable {α : Type} [LinearOrderedField α] [FloorRing α]

theorem num_samples_underrun (control : PreviewControl ℝ)
    (h : control.duration = 2882534345818039 / 1152921504606846976) :
    num_samples (epochModel ℝ) control = 3 := by
  unfold num_samples
  rw [h]
  apply toUnsigned_eq <;> norm_num [epochModel, scenarioModel]

theorem recount_underrun (control : PreviewControl ℝ)
    (h : control.duration = 2882534345818039 / 1152921504606846976) :
    toUnsigned (control.duration /
      ((storedSample ℝ (1700000000 + 8389 / 4194304)).time -
        (storedSample ℝ (1700000000 + 4194 / 4194304)).time)) = 2 := by
  rw [h]
  apply toUnsigned_eq <;> norm_num [storedSample]

theorem recount_flatTrajectory (control : PreviewControl ℝ) (h : control.duration = 1 / 50) :
    toUnsigned (control.duration /
      ((storedSample ℝ (2 / 100)).time - (storedSample ℝ (1 / 100)).time)) = 2 := by
  rw [h]
  apply toUnsigned_eq <;> norm_num [storedSample]

theorem recount_twoStep :
    toUnsigned ((twoStepControl ℝ).duration /
      ((storedSample ℝ (1700000000 + 8389 / 4194304)).time -
        (storedSample ℝ (1700000000 + 4194 / 4194304)).time)) = 2 := by
  apply toUnsigned_eq <;> norm_num [storedSample, twoStepControl]

/-- C10, as stated, fails: `storedTwoStep` carries the two time stamps the
stance preview stores in double arithmetic for a phase of two sample periods of
0.001 that starts at time 1.7e9; the period read back at line 219 is 4195 units
of `2^-22`, not `sample_time_`, so the generator is queried for sample 0 at
`state.time + 4195·2^-22`, and the position stored for `lf_foot` is not the
output of the generator at `min (state.time + sample_time_·1) (state.time +
duration)`. -/
theorem addSwingPattern_swing_query_time :
    (storedTwoStep ℝ).length = num_samples (epochModel ℝ) (twoStepControl ℝ) ∧
    ∃ out s', addSwingPattern linearSwing (epochModel ℝ) (storedTwoStep ℝ) (epochFootState ℝ)
        (twoStepControl ℝ) = some out ∧
      out[0]? = some s' ∧
      BodyVector.find s'.foot_pos "lf_foot" ≠
        some (linearSwing (epochFootState ℝ).time ⟨3 / 10, 1 / 5, 0⟩ ⟨2 / 5, 1 / 5, 0⟩
          ⟨(twoStepControl ℝ).duration, (epochModel ℝ).step_height_⟩
          (min ((epochFootState ℝ).time + (epochModel ℝ).sample_time_ * (((0 : Nat) : ℝ) + 1))
            ((epochFootState ℝ).time + (twoStepControl ℝ).duration))).1 := by
  constructor
  · have : num_samples (epochModel ℝ) (twoStepControl ℝ) = 2 := by
      unfold num_samples
      apply toUnsigned_eq <;> norm_num [epochModel, scenarioModel, twoStepControl]
    rw [this]
    rfl
  obtain ⟨out, hout, hlen, _, _, hfeet⟩ := addSwingPattern_of_le linearSwing (epochModel ℝ)
    (storedTwoStep ℝ) (epochFootState ℝ) (twoStepControl ℝ)
    (storedSample ℝ (1700000000 + 4194 / 4194304)) (storedSample ℝ (1700000000 + 8389 / 4194304))
    rfl rfl (by rw [recount_twoStep]; simp [storedTwoStep])
  have hlen0 : 0 < out.length := by
    rw [hlen]
    simp [storedTwoStep]
  refine ⟨out, out[0], hout, List.getElem?_eq_getElem hlen0, ?_⟩
  have hval := (hfeet "lf_foot" ⟨3 / 10, 1 / 5, 0⟩ rfl 0 _ _
    (by rw [recount_twoStep]; norm_num) rfl (List.getElem?_eq_getElem hlen0)).1
  rw [hval]
  have htarget : BodyVector.find (twoStepControl ℝ).foot_target "lf_foot" =
      some ⟨2 / 5, 1 / 5, 0⟩ := rfl
  unfold footValue
  rw [htarget]
  simp only [swingTime_eq_min]
  have hmin1 : min ((epochFootState ℝ).time +
      ((storedSample ℝ (1700000000 + 8389 / 4194304)).time -
        (storedSample ℝ (1700000000 + 4194 / 4194304)).time) * (((0 : Nat) : ℝ) + 1))
      ((epochFootState ℝ).time + (twoStepControl ℝ).duration) =
      1700000000 + 4195 / 4194304 := by
    rw [min_eq_left] <;>
      norm_num [epochFootState, footState, scenarioState, zeroState, storedSample, twoStepControl]
  have hmin2 : min ((epochFootState ℝ).time + (epochModel ℝ).sample_time_ *
      (((0 : Nat) : ℝ) + 1)) ((epochFootState ℝ).time + (twoStepControl ℝ).duration) =
      1700000000 + 1152921504606847 / 1152921504606846976 := by
    rw [min_eq_left] <;>
      norm_num [epochFootState, footState, scenarioState, zeroState, epochModel, scenarioModel,
        twoStepControl]
  rw [hmin1, hmin2]
  intro h
  have hx := congrArg Vector3d.x (Option.some.inj h)
  norm_num [linearSwing, epochFootState, footState, scenarioState, zeroState, twoStepControl,
    scenarioControl] at hx

/-- C10, amended. For a foot present in `state.foot_pos` and in
`control.foot_target`, on a trajectory of at least two samples whose recomputed
sample count `n = round(duration / p)`, with `p = trajectory[1].time -
trajectory[0].time` the period read back from the trajectory, does not exceed
its length, `addSwingPattern` returns, and stores for that foot in every sample
`k < n` the position, velocity and acceleration the generator, set up with
`(state.time, current foot position, target position, control.duration,
step_height_)`, returns at the absolute time `min (state.time + p·(k+1))
(state.time + control.duration)`, which never exceeds `state.time +
control.duration`. -/
theorem addSwingPattern_swing_foot (gen : SwingGenerator α) (self : PreviewLocomotion α)
    (traj : PreviewTrajectory α) (state : PreviewState α) (control : PreviewControl α)
    (name : String) (actual_pos target_pos : Vector3d α) (s0 s1 : PreviewState α)
    (h0 : traj[0]? = some s0) (h1 : traj[1]? = some s1)
    (hle : toUnsigned (control.duration / (s1.time - s0.time)) ≤ traj.length)
    (hfoot : BodyVector.find state.foot_pos name = some actual_pos)
    (htarget : BodyVector.find control.foot_target name = some target_pos) :
    ∃ out, addSwingPattern gen self traj state control = some out ∧
      out.length = traj.length ∧
      ∀ (k : Nat), k < toUnsigned (control.duration / (s1.time - s0.time)) →
        ∃ s', out[k]? = some s' ∧
          FootIs s' name
            (gen state.time actual_pos target_pos ⟨control.duration, self.step_height_⟩
              (min (state.time + (s1.time - s0.time) * ((k : α) + 1))
                (state.time + control.duration))) ∧
          min (state.time + (s1.time - s0.time) * ((k : α) + 1))
              (state.time + control.duration) ≤ state.time + control.duration := by
  obtain ⟨out, hout, hlen, _, _, hfeet⟩ :=
    addSwingPattern_of_le gen self traj state control s0 s1 h0 h1 hle
  refine ⟨out, hout, hlen, ?_⟩
  intro k hk
  have hkt : k < traj.length := Nat.lt_of_lt_of_le hk hle
  have hko : k < out.length := hlen ▸ hkt
  refine ⟨out[k], List.getElem?_eq_getElem hko, ?_, min_le_right _ _⟩
  have hval := hfeet name actual_pos hfoot k _ _ hk (List.getElem?_eq_getElem hkt)
    (List.getElem?_eq_getElem hko)
  unfold footValue at hval
  rw [htarget] at hval
  simp only [swingTime_eq_min] at hval
  exact hval

/-- C10, witness: `lf_foot` swings to (0.4, 0.2, 0) over the two samples of
`flatTrajectory`, whose stamps differ by the sample period 0.01. -/
theorem addSwingPattern_swing_foot_witness :
    ∃ out, addSwingPattern linearSwing (scenarioModel ℝ) (flatTrajectory ℝ) (footState ℝ)
        (stepControl ℝ) = some out ∧
      out.length = (flatTrajectory ℝ).length ∧
      ∀ (k : Nat), k < 2 →
        ∃ s', out[k]? = some s' ∧
          FootIs s' "lf_foot"
            (linearSwing (footState ℝ).time ⟨3 / 10, 1 / 5, 0⟩ ⟨2 / 5, 1 / 5, 0⟩
              ⟨(stepControl ℝ).duration, (scenarioModel ℝ).step_height_⟩
              (min ((footState ℝ).time + (2 / 100 - 1 / 100) * ((k : ℝ) + 1))
                ((footState ℝ).time + (stepControl ℝ).duration))) :=
  have h := addSwingPattern_swing_foot linearSwing (scenarioModel ℝ) (flatTrajectory ℝ)
    (footState ℝ) (stepControl ℝ) "lf_foot" ⟨3 / 10, 1 / 5, 0⟩ ⟨2 / 5, 1 / 5, 0⟩
    (storedSample ℝ (1 / 100)) (storedSample ℝ (2 / 100)) rfl rfl
    (by rw [recount_flatTrajectory _ rfl]; rfl)
    (by simp [footState, BodyVector.find])
    (by simp [stepControl, BodyVector.find])
  h.imp fun _ hp => ⟨hp.1, hp.2.1, fun k hk =>
    (hp.2.2 k (by rw [recount_flatTrajectory _ rfl]; exact hk)).imp fun _ hs => ⟨hs.1, hs.2.1⟩⟩

end SwingClaims

/-! ## `multiPhasePreview` -/

section MultiPhaseClaims

variable {α : Type} [LinearOrderedField α] [FloorRing α]

theorem stancePreview_stanceTimed (m : LibM α) (self : PreviewLocomotion α)
    (dflt : PreviewState α) (trajectory : PreviewTrajectory α) (state : PreviewState α)
    (control : PreviewControl α) :
    StanceTimed self state control (stancePreview m self dflt trajectory state control) := by
  refine ⟨length_stancePreview m self dflt trajectory state control, ?_⟩
  intro k s hs
  have hk : k < num_samples self control := by
    have := (List.getElem?_eq_some_iff.1 hs).1
    rwa [length_stancePreview] at this
  rw [getElem?_stancePreview m self dflt trajectory state control k hk] at hs
  cases hs
  rfl

/-- A phase whose stance preview has at least two samples: the swing injection
succeeds and keeps the number of samples and their time stamps. -/
theorem phasePreview_spec (m : LibM α) (gen : SwingGenerator α) (self : PreviewLocomotion α)
    (dflt state : PreviewState α) (control : PreviewControl α)
    (h2 : 2 ≤ num_samples self control) :
    ∃ phase, phasePreview m gen self dflt state control = some phase ∧
      StanceTimed self state control phase := by
  have hshape := stancePreview_stanceTimed m self dflt [] state control
  obtain ⟨out, s0, _, hout, hlen, hall⟩ := addSwingPattern_timed gen self
    (stancePreview m self dflt [] state control) state control hshape (by rw [hshape.1]; exact h2)
  refine ⟨out, hout, hlen.trans hshape.1, ?_⟩
  intro k s' hs'
  obtain ⟨s, hs, hbase, _⟩ := hall k s' hs'
  rw [hbase.time]
  exact hshape.2 k s hs

/-- The loop of `multiPhasePreview` from phase `i` on, when `actual_state` of
phase `i` is `st`: it appends the chained phases to the trajectory built so
far. -/
theorem multiPhaseLoop_chain (m : LibM α) (gen : SwingGenerator α) (self : PreviewLocomotion α)
    (dflt state : PreviewState α) (cs : List (PreviewControl α)) :
    ∀ (i : Nat) (acc : PreviewTrajectory α) (st : PreviewState α),
    (if i = 0 then some state else acc.getLast?) = some st →
    (∀ c ∈ cs, 2 ≤ num_samples self c) →
    ∃ phases, chainedPhases m gen self dflt st cs = some phases ∧
      multiPhaseLoop m gen self dflt state i cs acc = some (acc ++ phases.flatten) ∧
      phases.map List.length = cs.map (num_samples self) ∧
      ∀ (k : Nat) x, phases.flatten[k]? = some x →
        x.time = st.time + self.sample_time_ * ((k + 1 : Nat) : α) := by
  induction cs with
  | nil =>
    intro i acc st _ _
    exact ⟨[], rfl, by simp [multiPhaseLoop], rfl, by simp⟩
  | cons c rest ih =>
    intro i acc st hst h2
    obtain ⟨p, hp, hplen, hptime⟩ :=
      phasePreview_spec m gen self dflt st c (h2 c (List.mem_cons_self _ _))
    have hn : 2 ≤ p.length := hplen ▸ h2 c (List.mem_cons_self _ _)
    have hlast : p.getLast? = some p[p.length - 1] := by
      rw [List.getLast?_eq_getElem?]
      exact List.getElem?_eq_getElem (by omega)
    have hlast_time : p[p.length - 1].time =
        st.time + self.sample_time_ * (p.length : α) := by
      rw [hptime (p.length - 1) _ (List.getElem?_eq_getElem (by omega))]
      congr 2
      have : p.length - 1 + 1 = p.length := by omega
      rw [this]
    obtain ⟨phases, hchain, hloop, hlens, htimes⟩ := ih (i + 1) (acc ++ p) p[p.length - 1]
      (by simp [List.getLast?_append, hlast])
      (fun c' hc' => h2 c' (List.mem_cons_of_mem _ hc'))
    refine ⟨p :: phases, ?_, ?_, ?_, ?_⟩
    · simp only [chainedPhases, hp, hlast, hchain]
    · unfold phasePreview at hp
      simp only [multiPhaseLoop, hst, hp, hloop, List.flatten_cons, List.append_assoc]
    · simp only [List.map_cons, hlens, hplen]
    · intro k x hx
      rw [List.flatten_cons] at hx
      by_cases hk : k < p.length
      · rw [List.getElem?_append_left hk] at hx
        exact hptime k x hx
      · have hle : p.length ≤ k := Nat.le_of_not_lt hk
        rw [List.getElem?_append_right hle] at hx
        rw [htimes _ x hx, hlast_time]
        have : ((k + 1 : Nat) : α) = (p.length : α) + ((k - p.length + 1 : Nat) : α) := by
          rw [← Nat.cast_add]
          congr 1
          omega
        rw [this]
        ring

end MultiPhaseClaims

/-! ## Invariants of the multi-phase preview -/

section MultiPhaseInvariants

variable {α : Type} [LinearOrderedField α] [FloorRing α]

/-- A property `P` of samples that every phase started from a state with `Q`
establishes, and that implies `Q`, holds for every sample of chained phases
started from a state with `Q`. -/
theorem chainedPhases_invariant (m : LibM α) (gen : SwingGenerator α)
    (self : PreviewLocomotion α) (dflt : PreviewState α) (P Q : PreviewState α → Prop)
    (hPQ : ∀ s, P s → Q s) (cs : List (PreviewControl α))
    (hstep : ∀ st c p, c ∈ cs → Q st → phasePreview m gen self dflt st c = some p →
      ∀ s ∈ p, P s) :
    ∀ st phases, Q st → chainedPhases m gen self dflt st cs = some phases →
      ∀ p ∈ phases, ∀ s ∈ p, P s := by
  induction cs with
  | nil =>
    intro st phases _ h
    simp only [chainedPhases, Option.some.injEq] at h
    subst h
    simp
  | cons c rest ih =>
    intro st phases hQ h
    rw [chainedPhases] at h
    cases hp : phasePreview m gen self dflt st c with
    | none => simp [hp] at h
    | some p =>
      cases hl : p.getLast? with
      | none => simp [hp, hl] at h
      | some last =>
        cases hr : chainedPhases m gen self dflt last rest with
        | none => simp [hp, hl, hr] at h
        | some phases' =>
          simp only [hp, hl, hr, Option.some.injEq] at h
          subst h
          have hPp : ∀ s ∈ p, P s := hstep st c p (List.mem_cons_self _ _) hQ hp
          have hlast : last ∈ p := List.mem_of_getLast?_eq_some hl
          have hrest := ih (fun st c p hc => hstep st c p (List.mem_cons_of_mem _ hc))
            last phases' (hPQ _ (hPp last hlast)) hr
          intro q hq
          rcases List.mem_cons.1 hq with hq | hq
          · subst hq
            exact hPp
          · exact hrest q hq

/-- What a phase with at least two samples leaves in its samples, in terms of
the stance samples it was built from. -/
theorem phasePreview_samples (m : LibM α) (gen : SwingGenerator α) (self : PreviewLocomotion α)
    (dflt state : PreviewState α) (control : PreviewControl α)
    (h2 : 2 ≤ num_samples self control) (p : PreviewTrajectory α)
    (hp : phasePreview m gen self dflt state control = some p) :
    ∀ s' ∈ p, ∃ k, k < num_samples self control ∧
      SameBase (stanceSample m self dflt state control k) s' ∧
      ∀ name actual, BodyVector.find state.foot_pos name = some actual →
        ∃ val, FootIs s' name val := by
  have hshape := stancePreview_stanceTimed m self dflt [] state control
  obtain ⟨out, s0, _, hout, _, hall⟩ := addSwingPattern_timed gen self
    (stancePreview m self dflt [] state control) state control hshape (by rw [hshape.1]; exact h2)
  have hpo : p = out := by
    unfold phasePreview at hp
    rw [hout] at hp
    exact (Option.some.inj hp).symm
  subst hpo
  intro s' hs'
  obtain ⟨k, hk⟩ := List.mem_iff_getElem?.1 hs'
  obtain ⟨s, hs, hbase, hfeet⟩ := hall k s' hk
  have hkn : k < num_samples self control := by
    have := (List.getElem?_eq_some_iff.1 hs).1
    rwa [length_stancePreview] at this
  rw [getElem?_stancePreview m self dflt [] state control k hkn] at hs
  cases hs
  exact ⟨k, hkn, hbase, fun name actual hname => ⟨_, hfeet name actual hname⟩⟩

/-- The output of `multiPhasePreview`, for phases of at least two samples each,
inherits every such invariant. -/
theorem multiPhasePreview_invariant (m : LibM α) (gen : SwingGenerator α)
    (self : PreviewLocomotion α) (dflt state : PreviewState α)
    (control : MultiPhasePreviewControl α) (P Q : PreviewState α → Prop)
    (hPQ : ∀ s, P s → Q s) (hQ : Q state)
    (h2 : ∀ c ∈ control, 2 ≤ num_samples self c)
    (hstep : ∀ st c p, c ∈ control → Q st → phasePreview m gen self dflt st c = some p →
      ∀ s ∈ p, P s) :
    ∃ out, multiPhasePreview m gen self dflt [] state control = some out ∧
      out.length = (control.map (num_samples self)).sum ∧ ∀ s ∈ out, P s := by
  obtain ⟨phases, hchain, hloop, hlens, _⟩ :=
    multiPhaseLoop_chain m gen self dflt state control 0 [] state (by simp) h2
  refine ⟨phases.flatten, by simpa [multiPhasePreview] using hloop, ?_, ?_⟩
  · rw [List.length_flatten, hlens]
  · intro s hs
    obtain ⟨p, hp, hsp⟩ := List.mem_flatten.1 hs
    exact chainedPhases_invariant m gen self dflt P Q hPQ control hstep state phases hQ hchain
      p hp s hsp

theorem num_samples_of_pos (self : PreviewLocomotion α) (control : PreviewControl α)
    (hs : 0 < self.sample_time_) (hd : 0 < control.duration) :
    (num_samples self control : Int) = Int.floor (control.duration / self.sample_time_ + 1 / 2) := by
  have hq : 0 < control.duration / self.sample_time_ := div_pos hd hs
  unfold num_samples toUnsigned cround
  rw [if_pos hq.le, Int.toNat_of_nonneg]
  apply Int.floor_nonneg.2
  linarith

end MultiPhaseInvariants

/-! ## Further claims about the previewer -/

section PreviewClaims

variable {α : Type} [LinearOrderedField α] [FloorRing α]

/-- C11 (the code departs from the claim). For a phase of 2.5002 sample periods
of 0.001 that starts at time 1.7e9 the stance preview has 3 samples, and the
time stamps it stores in double arithmetic are those of `storedUnderrun`; on
them `addSwingPattern` reads the period back as 4195 units of `2^-22`,
recomputes the count 2 and returns a trajectory whose sample 2 has no entry for
`lf_foot` in `foot_pos`, `foot_vel` and `foot_acc`, although sample 0 has one
and `lf_foot` is a key of the `foot_pos` of the initial state. -/
theorem addSwingPattern_leaves_sample_without_feet :
    num_samples (epochModel ℝ) (underrunStepControl ℝ) = 3 ∧
    (storedUnderrun ℝ).length = 3 ∧
    "lf_foot" ∈ (epochFootState ℝ).foot_pos.map Prod.fst ∧
    ∃ out first last, addSwingPattern linearSwing (epochModel ℝ) (storedUnderrun ℝ)
        (epochFootState ℝ) (underrunStepControl ℝ) = some out ∧
      out.length = 3 ∧
      out[0]? = some first ∧ (BodyVector.find first.foot_pos "lf_foot").isSome ∧
      out[2]? = some last ∧ BodyVector.find last.foot_pos "lf_foot" = none ∧
      BodyVector.find last.foot_vel "lf_foot" = none ∧
      BodyVector.find last.foot_acc "lf_foot" = none := by
  refine ⟨num_samples_underrun _ rfl, rfl, by simp [epochFootState, footState], ?_⟩
  obtain ⟨out, hout, hlen, _, hkeep, hfeet⟩ := addSwingPattern_of_le linearSwing (epochModel ℝ)
    (storedUnderrun ℝ) (epochFootState ℝ) (underrunStepControl ℝ)
    (storedSample ℝ (1700000000 + 4194 / 4194304)) (storedSample ℝ (1700000000 + 8389 / 4194304))
    rfl rfl (by rw [recount_underrun _ rfl]; simp [storedUnderrun])
  have hlen0 : 0 < out.length := by
    rw [hlen]
    simp [storedUnderrun]
  have hval := (hfeet "lf_foot" ⟨3 / 10, 1 / 5, 0⟩ rfl 0 _ _
    (by rw [recount_underrun _ rfl]; norm_num) rfl (List.getElem?_eq_getElem hlen0)).1
  refine ⟨out, out[0], storedSample ℝ (1700000000 + 12583 / 4194304), hout, hlen,
    List.getElem?_eq_getElem hlen0, by rw [hval]; rfl, ?_, rfl, rfl, rfl⟩
  rw [hkeep 2 (by rw [recount_underrun _ rfl])]
  rfl

/-- C15, as stated, fails: for a control sequence with zero phases
`multiPhasePreview` returns normally and leaves the (empty) trajectory as it
is; nothing is reported. -/
theorem multiPhasePreview_zero_phases_silent :
    multiPhasePreview ⟨Real.sqrt, Real.exp, Real.cos, Real.sin⟩ linearSwing (scenarioModel ℝ)
      (zeroState ℝ) [] (scenarioState ℝ) [] = some [] := rfl

/-- C15, amended. `multiPhasePreview` validates nothing and reports no error:
for a control sequence with zero phases it returns normally, with the
trajectory it was handed unchanged. -/
theorem multiPhasePreview_zero_phases (m : LibM α) (gen : SwingGenerator α)
    (self : PreviewLocomotion α) (dflt : PreviewState α) (trajectory : PreviewTrajectory α)
    (state : PreviewState α) :
    multiPhasePreview m gen self dflt trajectory state [] = some trajectory := rfl

/-- C17, as stated, fails: with sample period 0.01 and duration 0.012 the stance
preview has 1 sample, and `ceil(duration / sample_period)` is 2. -/
theorem stancePreview_count_not_ceil :
    0 < (lateControl ℝ).duration ∧ 0 < (scenarioModel ℝ).sample_time_ ∧
    (stancePreview ⟨Real.sqrt, Real.exp, Real.cos, Real.sin⟩ (scenarioModel ℝ) (zeroState ℝ) []
      (scenarioState ℝ) (lateControl ℝ)).length = 1 ∧
    Int.ceil ((lateControl ℝ).duration / (scenarioModel ℝ).sample_time_) = 2 := by
  have hq : (lateControl ℝ).duration / (scenarioModel ℝ).sample_time_ = 6 / 5 := by
    norm_num [lateControl, scenarioControl, scenarioModel]
  refine ⟨by norm_num [lateControl], by norm_num [scenarioModel], ?_, ?_⟩
  · have h := num_samples_of_pos (scenarioModel ℝ) (lateControl ℝ)
      (by norm_num [scenarioModel]) (by norm_num [lateControl])
    rw [hq] at h
    have hf : Int.floor ((6 / 5 : ℝ) + 1 / 2) = 1 := by
      rw [Int.floor_eq_iff]
      norm_num
    rw [hf] at h
    rw [length_stancePreview]
    exact_mod_cast h
  · rw [hq, Int.ceil_eq_iff]
    norm_num

/-- C17, amended. For positive duration and sample period `stancePreview` leaves
exactly `round(duration / sample_period)` samples, that is
`floor(duration / sample_period + 1/2)`; this is `ceil(duration / sample_period)`
whenever the fractional part of the quotient is zero or at least one half. -/
theorem stancePreview_count_round (m : LibM α) (self : PreviewLocomotion α)
    (dflt : PreviewState α) (trajectory : PreviewTrajectory α) (state : PreviewState α)
    (control : PreviewControl α) (hd : 0 < control.duration) (hs : 0 < self.sample_time_) :
    ((stancePreview m self dflt trajectory state control).length : Int) =
      Int.floor (control.duration / self.sample_time_ + 1 / 2) ∧
    ((Int.fract (control.duration / self.sample_time_) = 0 ∨
        1 / 2 ≤ Int.fract (control.duration / self.sample_time_)) →
      ((stancePreview m self dflt trajectory state control).length : Int) =
        Int.ceil (control.duration / self.sample_time_)) := by
  have hlen : ((stancePreview m self dflt trajectory state control).length : Int) =
      Int.floor (control.duration / self.sample_time_ + 1 / 2) := by
    rw [length_stancePreview]
    exact num_samples_of_pos self control hs hd
  refine ⟨hlen, ?_⟩
  intro h
  rw [hlen]
  have hfl := Int.floor_add_fract (control.duration / self.sample_time_)
  have hf0 := Int.fract_nonneg (control.duration / self.sample_time_)
  have hf1 := Int.fract_lt_one (control.duration / self.sample_time_)
  rcases h with h | h
  · have hq : control.duration / self.sample_time_ =
        ((Int.floor (control.duration / self.sample_time_) : Int) : α) := by
      rw [h, add_zero] at hfl
      exact hfl.symm
    rw [hq, Int.ceil_intCast, Int.floor_eq_iff]
    constructor <;> linarith
  · have hc : Int.ceil (control.duration / self.sample_time_) =
        Int.floor (control.duration / self.sample_time_) + 1 := by
      rw [Int.ceil_eq_iff]
      push_cast
      constructor <;> linarith
    rw [hc, Int.floor_eq_iff]
    push_cast
    constructor <;> linarith

/-- C17, witness: the scenario (0.5 / 0.01) has `floor(50 + 1/2)` samples. -/
theorem stancePreview_count_round_witness :
    ((stancePreview ⟨Real.sqrt, Real.exp, Real.cos, Real.sin⟩ (scenarioModel ℝ) (zeroState ℝ) []
      (scenarioState ℝ) (scenarioControl ℝ)).length : Int) =
      Int.floor ((scenarioControl ℝ).duration / (scenarioModel ℝ).sample_time_ + 1 / 2) :=
  (stancePreview_count_round ⟨Real.sqrt, Real.exp, Real.cos, Real.sin⟩ (scenarioModel ℝ)
    (zeroState ℝ) [] (scenarioState ℝ) (scenarioControl ℝ) (by norm_num [scenarioControl])
    (by norm_num [scenarioModel])).1

/-- C18. With `exp 0 = 1`, `cos 0 = 1`, `sin 0 = 0`, a square root that is
positive on positive numbers, and duration, slip height, stiffness and mass
positive, the closed forms of `stancePreview` at relative time 0 give back the
initial state: `β1 + β2 + cop_xy = com_xy` and the horizontal position is the
initial horizontal CoM position, the vertical position is `com_pos.z`, the
vertical velocity is `com_vel.z`.  The initial state is arbitrary, so this
holds for the last sample of a phase, from which `multiPhasePreview` starts
the next phase: the CoM position of that phase continues from it. -/
theorem stanceState_zero_consistent (m : LibM α) (self : PreviewLocomotion α)
    (dflt state : PreviewState α) (control : PreviewControl α)
    (hexp : m.exp 0 = 1) (hcos : m.cos 0 = 1) (hsin : m.sin 0 = 0)
    (hsqrt : ∀ x, 0 < x → 0 < m.sqrt x)
    (_hT : 0 < control.duration) (_hh : 0 < self.slip_.height)
    (hk : 0 < self.slip_.stiffness) (hm : 0 < self.mass_) :
    beta_1 m self state control + beta_2 m self state control + state.cop.head2 =
      state.com_pos.head2 ∧
    (stanceState m self dflt state control 0).com_pos = state.com_pos ∧
    (stanceState m self dflt state control 0).com_vel.z = state.com_vel.z := by
  have hω : spring_omega m self ≠ 0 := (hsqrt _ (div_pos hk hm)).ne'
  refine ⟨?_, ?_, ?_⟩
  · apply Vector2d.ext <;> simp [beta_1, beta_2, slip_hor_proj]
  · apply Vector3d.ext
    · simp [stanceState, beta_1, beta_2, slip_hor_proj, hexp]
    · simp [stanceState, beta_1, beta_2, slip_hor_proj, hexp]
    · exact stanceState_zero_com_pos_z m self dflt state control hcos hsin
  · simp only [stanceState, mul_zero, hcos, hsin, Vector3d.vec3_setZ_z, d_2]
    field_simp
    ring

/-- C18, witness: the scenario of the specification over the reals. -/
theorem stanceState_zero_consistent_witness :
    (stanceState ⟨Real.sqrt, Real.exp, Real.cos, Real.sin⟩ (scenarioModel ℝ) (zeroState ℝ)
      (scenarioState ℝ) (scenarioControl ℝ) 0).com_pos = (scenarioState ℝ).com_pos ∧
    (stanceState ⟨Real.sqrt, Real.exp, Real.cos, Real.sin⟩ (scenarioModel ℝ) (zeroState ℝ)
      (scenarioState ℝ) (scenarioControl ℝ) 0).com_vel.z = (scenarioState ℝ).com_vel.z :=
  (stanceState_zero_consistent ⟨Real.sqrt, Real.exp, Real.cos, Real.sin⟩ (scenarioModel ℝ)
    (zeroState ℝ) (scenarioState ℝ) (scenarioControl ℝ) Real.exp_zero Real.cos_zero
    Real.sin_zero (fun _ hx => Real.sqrt_pos.2 hx) (by norm_num [scenarioControl])
    (by norm_num [scenarioModel]) (by norm_num [scenarioModel])
    (by norm_num [scenarioModel])).2

/-- C19. Every sample `stancePreview` produces has the `cop` and the
`support_region` of a default-constructed `PreviewState`, whatever the state and
the control are; so has every sample of the trajectory `multiPhasePreview`
returns (for phases of at least two samples), in particular the last sample of
each phase, from which the next phase starts: no `terminal_cop` reaches a
sample. -/
theorem stancePreview_cop_default (m : LibM α) (gen : SwingGenerator α)
    (self : PreviewLocomotion α) (dflt : PreviewState α) (trajectory : PreviewTrajectory α)
    (state : PreviewState α) (control : MultiPhasePreviewControl α)
    (h2 : ∀ c ∈ control, 2 ≤ num_samples self c) :
    (∀ st c, ∀ s ∈ stancePreview m self dflt trajectory st c,
      s.cop = dflt.cop ∧ s.support_region = dflt.support_region) ∧
    ∃ out, multiPhasePreview m gen self dflt [] state control = some out ∧
      out.length = (control.map (num_samples self)).sum ∧
      ∀ s ∈ out, s.cop = dflt.cop ∧ s.support_region = dflt.support_region := by
  constructor
  · intro st c s hs
    rw [stancePreview_eq] at hs
    obtain ⟨k, _, rfl⟩ := List.mem_map.1 hs
    exact ⟨rfl, rfl⟩
  · apply multiPhasePreview_invariant m gen self dflt state control
      (fun s => s.cop = dflt.cop ∧ s.support_region = dflt.support_region) (fun _ => True)
      (fun _ _ => trivial) trivial h2
    intro st c p hc _ hp s hs
    obtain ⟨k, _, hbase, _⟩ := phasePreview_samples m gen self dflt st c (h2 c hc) p hp s hs
    exact ⟨hbase.cop, hbase.support_region⟩

/-- C19, witness: two phases of the scenario, whose terminal CoP is (0.1, 0);
every sample keeps the default CoP. -/
theorem stancePreview_cop_default_witness :
    ∃ out, multiPhasePreview ⟨Real.sqrt, Real.exp, Real.cos, Real.sin⟩ linearSwing
        (scenarioModel ℝ) (zeroState ℝ) [] (footState ℝ)
        [scenarioControl ℝ, scenarioControl ℝ] = some out ∧
      out.length = 100 ∧ ∀ s ∈ out, s.cop = (zeroState ℝ).cop :=
  have h := (stancePreview_cop_default ⟨Real.sqrt, Real.exp, Real.cos, Real.sin⟩ linearSwing
    (scenarioModel ℝ) (zeroState ℝ) [] (footState ℝ) [scenarioControl ℝ, scenarioControl ℝ]
    (by
      intro c hc
      have hc' : c = scenarioControl ℝ := by simpa using hc
      rw [hc', num_samples_scenario _ rfl]
      norm_num)).2
  h.imp fun _ hp => ⟨hp.1, by
    rw [hp.2.1]
    simp [num_samples_scenario (scenarioControl ℝ) rfl], fun s hs => (hp.2.2 s hs).1⟩

theorem num_samples_overrun :
    num_samples (epochModel ℝ) (overrunControl ℝ) = 2 := by
  unfold num_samples
  apply toUnsigned_eq <;> norm_num [epochModel, scenarioModel, overrunControl]

theorem recount_overrun :
    toUnsigned ((overrunControl ℝ).duration /
      ((storedSample ℝ (1000000000 + 16777 / 8388608)).time -
        (storedSample ℝ (1000000000 + 8389 / 8388608)).time)) = 3 := by
  apply toUnsigned_eq <;> norm_num [storedSample, overrunControl]

/-- C20 (the code departs from the claim). For a phase of 2.4999 sample periods
of 0.001 that starts at time 1e9 the stance preview has 2 samples, and the time
stamps it stores in double arithmetic are those of `storedOverrun`; on them the
period `addSwingPattern` reads back is 8388 units of `2^-23`, not
`sample_time_`, the count it recomputes is 3, not the length 2, and the loop
over the samples of the first foot writes `trajectory[2]`, out of range.  On a
trajectory of fewer than two samples the read of `trajectory[1]` is out of
range, as the claim says. -/
theorem addSwingPattern_recount_overrun :
    num_samples (epochModel ℝ) (overrunControl ℝ) = 2 ∧
    (storedOverrun ℝ).length = 2 ∧
    (storedOverrun ℝ)[0]? = some (storedSample ℝ (1000000000 + 8389 / 8388608)) ∧
    (storedOverrun ℝ)[1]? = some (storedSample ℝ (1000000000 + 16777 / 8388608)) ∧
    (storedSample ℝ (1000000000 + 16777 / 8388608)).time -
        (storedSample ℝ (1000000000 + 8389 / 8388608)).time = 8388 / 8388608 ∧
    (storedSample ℝ (1000000000 + 16777 / 8388608)).time -
        (storedSample ℝ (1000000000 + 8389 / 8388608)).time ≠ (epochModel ℝ).sample_time_ ∧
    toUnsigned ((overrunControl ℝ).duration /
      ((storedSample ℝ (1000000000 + 16777 / 8388608)).time -
        (storedSample ℝ (1000000000 + 8389 / 8388608)).time)) = 3 ∧
    addSwingPattern linearSwing (epochModel ℝ) (storedOverrun ℝ) (billionFootState ℝ)
      (overrunControl ℝ) = none ∧
    (∀ traj : PreviewTrajectory ℝ, traj.length < 2 →
      traj[1]? = none ∧
      addSwingPattern linearSwing (epochModel ℝ) traj (billionFootState ℝ)
        (overrunControl ℝ) = none) := by
  refine ⟨num_samples_overrun, rfl, rfl, rfl, by norm_num [storedSample],
    by norm_num [storedSample, epochModel, scenarioModel], recount_overrun, ?_, ?_⟩
  · exact addSwingPattern_overrun linearSwing (epochModel ℝ) (storedOverrun ℝ)
      (billionFootState ℝ) (overrunControl ℝ)
      (storedSample ℝ (1000000000 + 8389 / 8388608))
      (storedSample ℝ (1000000000 + 16777 / 8388608)) rfl rfl
      (by rw [recount_overrun]; simp [storedOverrun])
      (by simp [billionFootState, footState])
  · intro traj h
    exact addSwingPattern_short linearSwing (epochModel ℝ) traj (billionFootState ℝ)
      (overrunControl ℝ) h

end PreviewClaims

/-! ## The translators -/

section TranslatorClaims

variable {α : Type} [LinearOrderedField α] [FloorRing α]

theorem addSupportRegion_defined (full_state : WholeBodyState α) (active_contacts : List String)
    (hdef : ∀ name ∈ active_contacts, (BodyVector.find full_state.contact_pos name).isSome) :
    ∀ support_region, ∃ out, addSupportRegion full_state active_contacts support_region =
      some out := by
  induction active_contacts with
  | nil => exact fun sr => ⟨sr, rfl⟩
  | cons name rest ih =>
    intro sr
    obtain ⟨pos, hpos⟩ := Option.isSome_iff_exists.1 (hdef name (List.mem_cons_self _ _))
    obtain ⟨out, hout⟩ := ih (fun n hn => hdef n (List.mem_cons_of_mem _ hn))
      (BodyVector.set sr name pos)
    refine ⟨out, ?_⟩
    unfold addSupportRegion at hout ⊢
    rw [List.foldlM_cons, hpos]
    exact hout

theorem addSupportRegion_undefined (full_state : WholeBodyState α) (name : String)
    (rest : List String) (support_region : BodyVector α)
    (h : BodyVector.find full_state.contact_pos name = none) :
    addSupportRegion full_state (name :: rest) support_region = none := by
  unfold addSupportRegion
  rw [List.foldlM_cons, h]
  rfl

/-- The result of `fromWholeBodyState` when every active contact has a contact
position: the cached CoM offset and every field of the preview state but the
support region are given by the assignments of lines 311-334 and 350-352. -/
theorem fromWholeBodyState_eq (col : Collaborators α) (self : PreviewLocomotion α)
    (preview_state : PreviewState α) (full_state : WholeBodyState α)
    (hdef : ∀ name ∈ col.getActiveContacts full_state.contact_eff self.force_threshold_,
      (BodyVector.find full_state.contact_pos name).isSome) :
    ∃ support_region,
      fromWholeBodyState col self preview_state full_state =
        some ({ self with
            actual_system_com_ := col.getSystemCoM Vector6d.Zero full_state.joint_pos },
          { time := full_state.time
            com_pos := col.getSystemCoM full_state.base_pos full_state.joint_pos
            com_vel := col.getSystemCoMRate full_state.base_pos full_state.joint_pos
              full_state.base_vel full_state.joint_vel
            com_acc := full_state.base_acc.linear
            head_pos := full_state.base_pos.angular.z
            head_vel := full_state.base_vel.angular.z
            head_acc := full_state.base_acc.angular.z
            cop := full_state.base_pos.linear + col.rotate full_state.base_pos.angular
              (col.computeCenterOfPressure full_state.contact_eff full_state.contact_pos
                col.getEndEffectorNames)
            foot_pos := full_state.contact_pos
            foot_vel := full_state.contact_vel
            foot_acc := full_state.contact_acc
            support_region := support_region }) := by
  obtain ⟨sr, hsr⟩ := addSupportRegion_defined full_state _ hdef preview_state.support_region
  refine ⟨sr, ?_⟩
  unfold fromWholeBodyState
  simp only [hsr]

/-- Calling `toWholeBodyState` on the state an earlier call left gives what the
call gives on the state before that earlier call: every member it writes is
overwritten, the others are not touched. -/
theorem toWholeBodyState_idem (self : PreviewLocomotion α) (full_state : WholeBodyState α)
    (a b : PreviewState α) :
    toWholeBodyState self (toWholeBodyState self full_state a) b =
      toWholeBodyState self full_state b := rfl

/-- The loop of `toWholeBodyTrajectory` after `n` iterations. -/
theorem toWholeBodyTrajectory_loop (self : PreviewLocomotion α) (dfltW : WholeBodyState α)
    (preview_traj : PreviewTrajectory α) (full_traj : WholeBodyTrajectory α) (n : Nat)
    (hn : n ≤ preview_traj.length) (hlen : full_traj.length = preview_traj.length) :
    ∃ full_state,
      (List.range n).foldl
        (fun (acc : WholeBodyTrajectory α × WholeBodyState α) k =>
          match preview_traj[k]? with
          | some preview_state =>
            (acc.1.set k (toWholeBodyState self acc.2 preview_state),
              toWholeBodyState self acc.2 preview_state)
          | none => acc)
        (full_traj, dfltW) =
        ((preview_traj.take n).map (toWholeBodyState self dfltW) ++ full_traj.drop n,
          full_state) ∧
      ∀ b, toWholeBodyState self full_state b = toWholeBodyState self dfltW b := by
  induction n with
  | zero => exact ⟨dfltW, by simp, fun _ => rfl⟩
  | succ n ih =>
    have hlt : n < preview_traj.length := hn
    obtain ⟨st, hfold, hst⟩ := ih (Nat.le_of_lt hlt)
    refine ⟨toWholeBodyState self dfltW preview_traj[n], ?_,
      fun b => toWholeBodyState_idem self dfltW preview_traj[n] b⟩
    rw [List.range_succ, List.foldl_append, hfold]
    simp only [List.foldl_cons, List.foldl_nil, List.getElem?_eq_getElem hlt, hst]
    congr 1
    rw [List.set_append_right _ _ (by simp [Nat.min_eq_left (Nat.le_of_lt hlt)]),
      List.drop_eq_getElem_cons (hlen ▸ hlt)]
    simp only [List.length_map, List.length_take, Nat.min_eq_left (Nat.le_of_lt hlt),
      Nat.sub_self, List.set_cons_zero]
    rw [List.take_succ, List.getElem?_eq_getElem hlt]
    simp only [Option.toList, List.map_append, List.map_cons, List.map_nil, List.append_assoc,
      List.singleton_append]

/-- C12, as stated, fails: for a robot whose mass sits 0.1 m ahead of the base
origin and whose base is turned by half a turn, the round trip through
`fromWholeBodyState` and `toWholeBodyState` (with the CoM offset the first
call cached) does not give the linear base position back. -/
theorem roundTrip_base_position_lost :
    ∃ self' preview_state,
      fromWholeBodyState
        (pointMassCollaborators ⟨Real.sqrt, Real.exp, Real.cos, Real.sin⟩ ⟨1 / 10, 0, 0⟩)
        (scenarioModel ℝ) (zeroState ℝ) (turnedWholeBody Real.pi) =
        some (self', preview_state) ∧
      (toWholeBodyState self' zeroWholeBody preview_state).base_pos.linear ≠
        (turnedWholeBody Real.pi).base_pos.linear := by
  obtain ⟨sr, hsr⟩ := fromWholeBodyState_eq
    (pointMassCollaborators ⟨Real.sqrt, Real.exp, Real.cos, Real.sin⟩ ⟨1 / 10, 0, 0⟩)
    (scenarioModel ℝ) (zeroState ℝ) (turnedWholeBody Real.pi)
    (by simp [pointMassCollaborators])
  refine ⟨_, _, hsr, ?_⟩
  intro h
  have hx := congrArg Vector3d.x h
  simp [toWholeBodyState, pointMassCollaborators, rotateYaw, turnedWholeBody, zeroWholeBody,
    Vector6d.Zero, Vector3d.Zero] at hx
  norm_num at hx

/-- C12, amended. When every active contact has a contact position, the round
trip through `fromWholeBodyState` and `toWholeBodyState` (with the CoM offset
the first call cached, into any whole-body state) gives a linear base position
`getSystemCoM(base_pos, joint_pos) − getSystemCoM(0, joint_pos)`, a linear base
velocity `getSystemCoMRate(base_pos, joint_pos, base_vel, joint_vel)` and the
linear base acceleration of `W`; the linear base position is that of `W` when
the CoM at the pose of `W` is its linear base position plus the CoM at the
zeroed pose, and the linear base velocity is that of `W` when the CoM rate is
the linear base velocity of `W`.  Roll and pitch are not written by
`toWholeBodyState`: those of base position, velocity and acceleration of the
result are those of the whole-body state handed to `toWholeBodyState`. -/
theorem roundTrip_base_linear (col : Collaborators α) (self : PreviewLocomotion α)
    (preview_state : PreviewState α) (full_state W : WholeBodyState α)
    (hdef : ∀ name ∈ col.getActiveContacts W.contact_eff self.force_threshold_,
      (BodyVector.find W.contact_pos name).isSome) :
    ∃ self' preview_state',
      fromWholeBodyState col self preview_state W = some (self', preview_state') ∧
      (toWholeBodyState self' full_state preview_state').base_pos.linear =
        col.getSystemCoM W.base_pos W.joint_pos - col.getSystemCoM Vector6d.Zero W.joint_pos ∧
      (toWholeBodyState self' full_state preview_state').base_vel.linear =
        col.getSystemCoMRate W.base_pos W.joint_pos W.base_vel W.joint_vel ∧
      (toWholeBodyState self' full_state preview_state').base_acc.linear = W.base_acc.linear ∧
      (col.getSystemCoM W.base_pos W.joint_pos =
          W.base_pos.linear + col.getSystemCoM Vector6d.Zero W.joint_pos →
        (toWholeBodyState self' full_state preview_state').base_pos.linear =
          W.base_pos.linear) ∧
      (col.getSystemCoMRate W.base_pos W.joint_pos W.base_vel W.joint_vel = W.base_vel.linear →
        (toWholeBodyState self' full_state preview_state').base_vel.linear =
          W.base_vel.linear) ∧
      (toWholeBodyState self' full_state preview_state').base_pos.angular.x =
        full_state.base_pos.angular.x ∧
      (toWholeBodyState self' full_state preview_state').base_pos.angular.y =
        full_state.base_pos.angular.y ∧
      (toWholeBodyState self' full_state preview_state').base_vel.angular.x =
        full_state.base_vel.angular.x ∧
      (toWholeBodyState self' full_state preview_state').base_vel.angular.y =
        full_state.base_vel.angular.y ∧
      (toWholeBodyState self' full_state preview_state').base_acc.angular.x =
        full_state.base_acc.angular.x ∧
      (toWholeBodyState self' full_state preview_state').base_acc.angular.y =
        full_state.base_acc.angular.y := by
  obtain ⟨sr, hsr⟩ := fromWholeBodyState_eq col self preview_state W hdef
  refine ⟨_, _, hsr, rfl, rfl, rfl, ?_, ?_, rfl, rfl, rfl, rfl, rfl, rfl⟩
  · intro h
    show col.getSystemCoM W.base_pos W.joint_pos - col.getSystemCoM Vector6d.Zero W.joint_pos =
      W.base_pos.linear
    rw [h]
    apply Vector3d.ext <;> simp
  · intro h
    exact h

/-- C12, witness: the point-mass robot with the base not turned; the round trip
into a zero whole-body state gives the linear base position and velocity back,
and a roll of zero, that of the state it was written into. -/
theorem roundTrip_base_linear_witness :
    ∃ self' preview_state',
      fromWholeBodyState
        (pointMassCollaborators ⟨Real.sqrt, Real.exp, Real.cos, Real.sin⟩ ⟨1 / 10, 0, 0⟩)
        (scenarioModel ℝ) (zeroState ℝ) (turnedWholeBody 0) = some (self', preview_state') ∧
      (toWholeBodyState self' zeroWholeBody preview_state').base_pos.linear =
        (turnedWholeBody (0 : ℝ)).base_pos.linear ∧
      (toWholeBodyState self' zeroWholeBody preview_state').base_vel.linear =
        (turnedWholeBody (0 : ℝ)).base_vel.linear ∧
      (toWholeBodyState self' zeroWholeBody preview_state').base_pos.angular.x =
        (zeroWholeBody : WholeBodyState ℝ).base_pos.angular.x :=
  have h := roundTrip_base_linear
    (pointMassCollaborators ⟨Real.sqrt, Real.exp, Real.cos, Real.sin⟩ ⟨1 / 10, 0, 0⟩)
    (scenarioModel ℝ) (zeroState ℝ) zeroWholeBody (turnedWholeBody 0)
    (by simp [pointMassCollaborators])
  let ⟨self', ps, hfrom, _, _, _, hpos, hvel, hroll, _⟩ := h
  ⟨self', ps, hfrom,
    hpos (by
      apply Vector3d.ext <;>
        simp [pointMassCollaborators, rotateYaw, turnedWholeBody, zeroWholeBody, Vector6d.Zero,
          Vector3d.Zero]),
    hvel (by
      apply Vector3d.ext <;>
        simp [pointMassCollaborators, rotateYaw, turnedWholeBody, zeroWholeBody, Vector6d.Zero,
          Vector3d.Zero]),
    hroll⟩

/-- When the loop over the active contacts dereferences `end()`,
`fromWholeBodyState` has no defined result. -/
theorem fromWholeBodyState_undefined (col : Collaborators α) (self : PreviewLocomotion α)
    (preview_state : PreviewState α) (full_state : WholeBodyState α)
    (h : addSupportRegion full_state
      (col.getActiveContacts full_state.contact_eff self.force_threshold_)
      preview_state.support_region = none) :
    fromWholeBodyState col self preview_state full_state = none := by
  unfold fromWholeBodyState
  simp only [h]

/-- C13, as stated, fails: for a whole-body state with a contact effort of 50 N
on `rf_foot` and no contact position for `rf_foot`, and a dynamics engine that
reports the contacts whose vertical force exceeds the threshold (here 0),
`rf_foot` is an active contact, line 346 dereferences `end()`, and
`fromWholeBodyState` has no defined result to translate back. -/
theorem fromWholeBodyState_active_contact_without_position :
    (thresholdCollaborators ⟨Real.sqrt, Real.exp, Real.cos, Real.sin⟩
        ⟨1 / 10, 0, 0⟩).getActiveContacts (loadedWholeBody : WholeBodyState ℝ).contact_eff
      (scenarioModel ℝ).force_threshold_ = ["rf_foot"] ∧
    BodyVector.find (loadedWholeBody : WholeBodyState ℝ).contact_pos "rf_foot" = none ∧
    fromWholeBodyState
      (thresholdCollaborators ⟨Real.sqrt, Real.exp, Real.cos, Real.sin⟩ ⟨1 / 10, 0, 0⟩)
      (scenarioModel ℝ) (zeroState ℝ) loadedWholeBody = none := by
  have hact : (thresholdCollaborators ⟨Real.sqrt, Real.exp, Real.cos, Real.sin⟩
        ⟨1 / 10, 0, 0⟩).getActiveContacts (loadedWholeBody : WholeBodyState ℝ).contact_eff
      (scenarioModel ℝ).force_threshold_ = ["rf_foot"] := by
    simp [thresholdCollaborators, loadedWholeBody, scenarioModel]
  refine ⟨hact, rfl, ?_⟩
  apply fromWholeBodyState_undefined
  rw [hact]
  exact addSupportRegion_undefined _ _ _ _ rfl

/-- C13, amended. For a whole-body state `W` whose active contacts all have a
contact position, `fromWholeBodyState` returns, and `toWholeBodyState` applied
to its result, into any whole-body state, gives the time, the yaw components of
base position, velocity and acceleration, and the contact position, velocity
and acceleration maps of `W`, whatever the collaborators return. -/
theorem roundTrip_time_heading_contacts (col : Collaborators α) (self : PreviewLocomotion α)
    (preview_state : PreviewState α) (full_state W : WholeBodyState α)
    (hdef : ∀ name ∈ col.getActiveContacts W.contact_eff self.force_threshold_,
      (BodyVector.find W.contact_pos name).isSome) :
    ∃ self' preview_state',
      fromWholeBodyState col self preview_state W = some (self', preview_state') ∧
      (toWholeBodyState self' full_state preview_state').time = W.time ∧
      (toWholeBodyState self' full_state preview_state').base_pos.angular.z =
        W.base_pos.angular.z ∧
      (toWholeBodyState self' full_state preview_state').base_vel.angular.z =
        W.base_vel.angular.z ∧
      (toWholeBodyState self' full_state preview_state').base_acc.angular.z =
        W.base_acc.angular.z ∧
      (toWholeBodyState self' full_state preview_state').contact_pos = W.contact_pos ∧
      (toWholeBodyState self' full_state preview_state').contact_vel = W.contact_vel ∧
      (toWholeBodyState self' full_state preview_state').contact_acc = W.contact_acc := by
  obtain ⟨sr, hsr⟩ := fromWholeBodyState_eq col self preview_state W hdef
  exact ⟨_, _, hsr, rfl, rfl, rfl, rfl, rfl, rfl, rfl⟩

/-- C13, witness: the point-mass robot turned by half a turn, whose linear base
position is not given back, keeps time, yaw and contact maps. -/
theorem roundTrip_time_heading_contacts_witness :
    ∃ self' preview_state',
      fromWholeBodyState
        (pointMassCollaborators ⟨Real.sqrt, Real.exp, Real.cos, Real.sin⟩ ⟨1 / 10, 0, 0⟩)
        (scenarioModel ℝ) (zeroState ℝ) (turnedWholeBody Real.pi) =
        some (self', preview_state') ∧
      (toWholeBodyState self' zeroWholeBody preview_state').time =
        (turnedWholeBody Real.pi).time ∧
      (toWholeBodyState self' zeroWholeBody preview_state').base_pos.angular.z = Real.pi ∧
      (toWholeBodyState self' zeroWholeBody preview_state').contact_pos =
        (turnedWholeBody Real.pi).contact_pos :=
  have h := roundTrip_time_heading_contacts
    (pointMassCollaborators ⟨Real.sqrt, Real.exp, Real.cos, Real.sin⟩ ⟨1 / 10, 0, 0⟩)
    (scenarioModel ℝ) (zeroState ℝ) zeroWholeBody (turnedWholeBody Real.pi)
    (by simp [pointMassCollaborators])
  let ⟨self', ps, hfrom, ht, hyaw, _, _, hc, _, _⟩ := h
  ⟨self', ps, hfrom, ht, hyaw, hc⟩

/-- C14. `toWholeBodyTrajectory` leaves in `full_traj` exactly the list of
`toWholeBodyState` applied to each sample of the preview trajectory alone,
starting from a default-constructed whole-body state, in the order of the
samples: the state reused across the iterations carries nothing from one
sample to the next. -/
theorem toWholeBodyTrajectory_eq_map (self : PreviewLocomotion α) (dfltW : WholeBodyState α)
    (full_traj : WholeBodyTrajectory α) (preview_traj : PreviewTrajectory α) :
    toWholeBodyTrajectory self dfltW full_traj preview_traj =
      preview_traj.map (toWholeBodyState self dfltW) ∧
    (toWholeBodyTrajectory self dfltW full_traj preview_traj).length = preview_traj.length ∧
    ∀ (k : Nat) ps, preview_traj[k]? = some ps →
      (toWholeBodyTrajectory self dfltW full_traj preview_traj)[k]? =
        some (toWholeBodyState self dfltW ps) := by
  have hmap : toWholeBodyTrajectory self dfltW full_traj preview_traj =
      preview_traj.map (toWholeBodyState self dfltW) := by
    unfold toWholeBodyTrajectory
    obtain ⟨st, hfold, _⟩ := toWholeBodyTrajectory_loop self dfltW preview_traj
      (resize full_traj preview_traj.length dfltW) preview_traj.length (Nat.le_refl _)
      (length_resize _ _ _)
    simp only [hfold]
    rw [List.take_length, List.drop_of_length_le (by rw [length_resize]), List.append_nil]
  refine ⟨hmap, by rw [hmap, List.length_map], ?_⟩
  intro k ps hk
  rw [hmap, List.getElem?_map, hk]
  rfl

end TranslatorClaims

/-! ## `LegCollisionFeature::computeReward` -/

section LegCollisionClaims

variable {α : Type} [LinearOrderedField α] [FloorRing α]

/-- Once the fuel is at least `(bound - x) / step`, for a positive `step`, more
fuel does not change the values of the loop variable: the loop has ended. -/
theorem loopValuesAux_stable (bound step : α) (hstep : 0 < step) :
    ∀ (n : Nat) (x : α), (bound - x) / step ≤ (n : α) →
      ∀ k, loopValuesAux (n + k) x bound step = loopValuesAux n x bound step := by
  intro n
  induction n with
  | zero =>
    intro x hx k
    have hb : ¬ x < bound := by
      rw [Nat.cast_zero, div_le_iff₀ hstep, zero_mul] at hx
      linarith
    cases k with
    | zero => rfl
    | succ k => simp [loopValuesAux, hb]
  | succ n ih =>
    intro x hx k
    have hk : n + 1 + k = (n + k) + 1 := by omega
    rw [hk, loopValuesAux, loopValuesAux]
    by_cases hb : x < bound
    · rw [if_pos hb, if_pos hb, ih (x + step) _ k]
      rw [div_le_iff₀ hstep] at hx ⊢
      push_cast at hx
      linarith
    · rw [if_neg hb, if_neg hb]

/-- For a positive step, every amount of fuel from `ceil((bound - start) /
step)` on gives the values of `loopValues`. -/
theorem loopValues_enough (start bound step : α) (hstep : 0 < step) (fuel : Nat)
    (hfuel : Nat.ceil ((bound - start) / step) ≤ fuel) :
    loopValuesAux fuel start bound step = loopValues start bound step := by
  obtain ⟨k, rfl⟩ := Nat.exists_eq_add_of_le hfuel
  exact loopValuesAux_stable bound step hstep _ start (Nat.le_ceil _) k

theorem heightFind_key (hm : HeightMap α) (vertex : Vertex) (entry : Vertex × α)
    (h : heightFind hm vertex = some entry) : entry.1 = vertex := by
  induction hm with
  | nil => simp [heightFind] at h
  | cons e rest ih =>
    obtain ⟨k, ht⟩ := e
    by_cases hk : k = vertex
    · simp only [heightFind, hk, if_true, Option.some.injEq] at h
      rw [← h]
    · simp only [heightFind, hk, if_false] at h
      exact ih h

theorem foldlM_nested {σ β γ δ : Type} (ys : List β) (xs : List γ) (f : γ → β → δ)
    (g : δ → σ → Option σ) (st : σ) :
    ys.foldlM (fun st y => xs.foldlM (fun st x => g (f x y) st) st) st =
      (ys.flatMap fun y => xs.map fun x => f x y).foldlM (fun st v => g v st) st := by
  induction ys generalizing st with
  | nil => rfl
  | cons y rest ih =>
    rw [List.foldlM_cons, List.flatMap_cons, List.foldlM_append, List.foldlM_map]
    cases xs.foldlM (fun st x => g (f x y) st) st with
    | none => rfl
    | some st' => exact ih st'

/-- `computeReward` in terms of the list of scanned vertices. -/
theorem computeReward_eq (m : LibM α) (robot : Robot α)
    (coordToVertex : α → Vector2d α → Vertex) (dbl_max : α) (info : RobotAndTerrain α) :
    computeReward m robot coordToVertex dbl_max info =
      match (scannedVertices m robot coordToVertex info).foldlM
          (fun st vertex => scanCell info vertex st) (-dbl_max, false) with
      | none => none
      | some st =>
        if st.2 then
          if st.1 - info.contact.position.z > 0 then some (-(st.1 - info.contact.position.z))
          else some 0
        else some 0 := by
  unfold computeReward scannedVertices
  simp only [foldlM_nested]
  generalize List.foldlM (m := Option) _ _ _ = r
  cases r with
  | none => rfl
  | some st =>
    cases st
    rfl

/-- The scan of cells that all have a height entry ends with the largest of
their heights (or the initial `max_height`, if that is larger) and with the
flag set as soon as there is a cell. -/
theorem foldlM_scanCell_present (info : RobotAndTerrain α) (cells : List Vertex)
    (hall : ∀ vertex ∈ cells, (heightFind info.height_map vertex).isSome) :
    ∀ st : α × Bool, cells.foldlM (fun st vertex => scanCell info vertex st) st =
      some ((heightsOf info cells).foldl max st.1, st.2 || !cells.isEmpty) := by
  induction cells with
  | nil => intro st; simp [heightsOf]
  | cons v rest ih =>
    intro st
    obtain ⟨e, he⟩ := Option.isSome_iff_exists.1 (hall v (List.mem_cons_self _ _))
    have hkey := heightFind_key _ _ _ he
    have hmax : (if e.2 > st.1 then e.2 else st.1) = max st.1 e.2 := by
      rw [max_def]
      split_ifs <;> first | rfl | linarith
    rw [List.foldlM_cons, scanCell, he]
    simp only [hkey, if_true, hmax]
    rw [Option.bind_eq_bind, Option.some_bind, ih (fun w hw => hall w (List.mem_cons_of_mem _ hw))]
    simp [heightsOf, he]

/-- When every scanned cell has a height entry, `computeReward` returns
`min(0, foothold_z - max_height)` with `max_height` the running maximum of the
heights of the scanned cells, and `0` when no cell is scanned. -/
theorem computeReward_of_present (m : LibM α) (robot : Robot α)
    (coordToVertex : α → Vector2d α → Vertex) (dbl_max : α) (info : RobotAndTerrain α)
    (hall : ∀ vertex ∈ scannedVertices m robot coordToVertex info,
      (heightFind info.height_map vertex).isSome) :
    computeReward m robot coordToVertex dbl_max info =
      some (if scannedVertices m robot coordToVertex info = [] then 0
        else min 0 (info.contact.position.z -
          (heightsOf info (scannedVertices m robot coordToVertex info)).foldl max
            (-dbl_max))) := by
  rw [computeReward_eq, foldlM_scanCell_present info _ hall]
  cases hc : scannedVertices m robot coordToVertex info with
  | nil => simp [heightsOf]
  | cons v rest =>
    simp only [Bool.false_or, List.isEmpty_cons, Bool.not_false, if_true, reduceCtorEq, if_false]
    rw [min_def]
    split_ifs <;> first | rfl | (congr 1; linarith)

/-- C16 (the code departs from the claim). For the one-cell work area of
`unitRobot` and an empty height map, the lookup `find` returns `end()` and
line 56 dereferences it: `computeReward` has no defined result, where the claim
gives the reward 0. -/
theorem computeReward_missing_entry (m : LibM α) (coordToVertex : α → Vector2d α → Vertex)
    (dbl_max : α) :
    scannedVertices m unitRobot coordToVertex (terrainAtOrigin ([] : HeightMap α)) =
      [cellVertex m coordToVertex (terrainAtOrigin ([] : HeightMap α)) 0 0] ∧
    computeReward m unitRobot coordToVertex dbl_max (terrainAtOrigin ([] : HeightMap α)) =
      none := by
  have hv : loopValues (0 : α) 1 1 = [0] := by
    simp [loopValues, loopValuesAux]
  have hs : scannedVertices m unitRobot coordToVertex (terrainAtOrigin ([] : HeightMap α)) =
      [cellVertex m coordToVertex (terrainAtOrigin ([] : HeightMap α)) 0 0] := by
    simp [scannedVertices, unitRobot, terrainAtOrigin, hv]
  refine ⟨hs, ?_⟩
  rw [computeReward_eq, hs]
  simp [scanCell, heightFind, terrainAtOrigin]

end LegCollisionClaims

end dwl
